import Mathlib

/-!
Shallow embedding of the e-commerce backend (TypeScript + drizzle/Postgres)
and verification of its natural-language specification.

Modelling conventions
* Every table of `src/server/src/db/schema.ts` becomes a Lean structure and the
  database a `Store` of lists (list order = storage order; a drizzle `select`
  without `orderBy` is read in storage order, `head?` models `rows[0]`).
* `numeric(10,2)` money columns and their JavaScript number images are modelled
  as integer cents (`Int`): a `numeric(10,2)` value is exactly a number of
  cents, and the `toString` / `parseFloat` conversions at the boundary are
  value preserving on that domain, so they are the identity here.
* `timestamp` columns (`defaultNow()`, `new Date()`) are a logical clock `Nat`
  passed to each handler that writes one.
* `serial` primary keys are generated as `freshId` = (max id in the table) + 1.
* Fallible handlers return `Except String α` carrying the thrown `Error`
  message, paired with the resulting `Store`; the source is plain sequential
  statements (no `db.transaction` except inside `createAddress`), so a handler
  that throws after writing keeps the writes it already made.
* JavaScript truthiness tests on optional fields (`if (input.variation_id)`,
  `input.custom_design_text || null`) are embedded by the normalisation
  functions `varNorm` / `designNorm` (absent, `null`, `0`, `""` are falsy).
* Cryptography is an external collaborator: `register` receives the random salt
  and the pbkdf2 hex digest as parameters and stores `salt ++ ":" ++ hex`,
  exactly the shape built at `register.ts` lines 20-22.
-/

namespace Shop

/-- User role enum (`user_role`). -/
inductive Role where
  | customer
  | admin
deriving DecidableEq, Repr

/-- Product type enum (`product_type`). -/
inductive ProductType where
  | perfume
  | shirt
deriving DecidableEq, Repr

/-- Gender enum (`gender`). -/
inductive Gender where
  | male
  | female
  | unisex
deriving DecidableEq, Repr

/-- Order status enum (`order_status`). -/
inductive OrderStatus where
  | pending
  | processing
  | shipped
  | delivered
  | cancelled
deriving DecidableEq, Repr

/-- Address type (`user_addresses.type`, text column restricted by the zod
input schemas to shipping or billing). -/
inductive AddrType where
  | shipping
  | billing
deriving DecidableEq, Repr

/-- Row of `users`. -/
structure User where
  id : Nat
  email : String
  password_hash : String
  first_name : String
  last_name : String
  role : Role
  created_at : Nat
  updated_at : Nat
deriving DecidableEq, Repr

/-- Row of `products`; `base_price` in cents. -/
structure Product where
  id : Nat
  name : String
  description : String
  type : ProductType
  gender : Option Gender
  base_price : Int
  image_url : Option String
  is_active : Bool
  created_at : Nat
  updated_at : Nat
deriving DecidableEq, Repr

/-- Row of `product_variations`; `price_adjustment` in cents (may be negative). -/
structure Variation where
  id : Nat
  product_id : Nat
  variation_type : String
  variation_value : String
  price_adjustment : Int
  stock_quantity : Nat
  is_available : Bool
deriving DecidableEq, Repr

/-- Row of `cart`. -/
structure Cart where
  id : Nat
  user_id : Nat
  created_at : Nat
  updated_at : Nat
deriving DecidableEq, Repr

/-- Row of `cart_items`; `unit_price` in cents. -/
structure CartItem where
  id : Nat
  cart_id : Nat
  product_id : Nat
  variation_id : Option Nat
  quantity : Nat
  custom_design_text : Option String
  custom_design_url : Option String
  unit_price : Int
  created_at : Nat
deriving DecidableEq, Repr

/-- Row of `orders`; `total_amount` in cents. -/
structure Order where
  id : Nat
  user_id : Nat
  order_number : String
  status : OrderStatus
  total_amount : Int
  shipping_address : String
  billing_address : String
  payment_method : String
  payment_status : String
  created_at : Nat
  updated_at : Nat
deriving DecidableEq, Repr

/-- Row of `order_items`; prices in cents. -/
structure OrderItem where
  id : Nat
  order_id : Nat
  product_id : Nat
  variation_id : Option Nat
  quantity : Nat
  custom_design_text : Option String
  custom_design_url : Option String
  unit_price : Int
  total_price : Int
deriving DecidableEq, Repr

/-- Row of `user_addresses`. -/
structure UserAddress where
  id : Nat
  user_id : Nat
  type : AddrType
  first_name : String
  last_name : String
  street_address : String
  city : String
  state : String
  postal_code : String
  country : String
  phone : Option String
  is_default : Bool
  created_at : Nat
deriving DecidableEq, Repr

/-- The relational store: one list per table, list order = storage order. -/
structure Store where
  users : List User
  products : List Product
  variations : List Variation
  carts : List Cart
  cartItems : List CartItem
  orders : List Order
  orderItems : List OrderItem
  addresses : List UserAddress
deriving DecidableEq, Repr

/-- Auth context attached by the (external) middleware. -/
structure AuthContext where
  user_id : Nat
  role : Role
deriving DecidableEq, Repr

/-- Fresh `serial` id for a table given the ids already present. -/
def freshId (ids : List Nat) : Nat :=
  ids.foldr max 0 + 1

/-- `registerInputSchema`. -/
structure RegisterInput where
  email : String
  password : String
  first_name : String
  last_name : String
deriving DecidableEq, Repr

/-- `loginInputSchema`. -/
structure LoginInput where
  email : String
  password : String
deriving DecidableEq, Repr

/-- The digest string `register` stores: at `register.ts` lines 20-22 it is
the hex salt, a colon, and the pbkdf2 hex hash. Salt and hash come from the
external crypto collaborator and are passed in as parameters. -/
def registerDigest (salt hashHex : String) : String :=
  salt ++ ":" ++ hashHex

/-- `register` (`src/server/src/handlers/auth/register.ts`): reject if any
user already has the email, otherwise insert a customer whose
`password_hash` is the salt-colon-pbkdf2 digest. -/
def register (now : Nat) (salt hashHex : String) (input : RegisterInput)
    (st : Store) : Except String User × Store :=
  if st.users.any (fun u => u.email = input.email) then
    (.error "Email already registered", st)
  else
    let user : User :=
      { id := freshId (st.users.map (·.id))
        email := input.email
        password_hash := registerDigest salt hashHex
        first_name := input.first_name
        last_name := input.last_name
        role := .customer
        created_at := now
        updated_at := now }
    (.ok user, { st with users := st.users ++ [user] })

/-- `login` (`src/unnamed/part_008`): find the first user with the email;
fail if none; fail if the submitted password differs from the stored
`password_hash` (the source compares them with `===`); otherwise return the
user. No writes. -/
def login (input : LoginInput) (st : Store) : Except String User :=
  match st.users.find? (fun u => u.email = input.email) with
  | none => .error "Invalid email or password"
  | some user =>
      if input.password = user.password_hash then .ok user
      else .error "Invalid email or password"

/-- A store with no user carrying the given email. -/
def emailFree (st : Store) (email : String) : Prop :=
  ∀ u ∈ st.users, u.email ≠ email

theorem find?_append_right {α : Type} (p : α → Bool) (l : List α) (a : α)
    (h : ∀ x ∈ l, ¬ p x) :
    (l ++ [a]).find? p = if p a then some a else none := by
  induction l with
  | nil =>
      simp only [List.nil_append, List.find?]
      cases hpa : p a <;> simp [hpa]
  | cons x xs ih =>
      have hx : ¬ p x := h x (by simp)
      have ih' := ih (fun y hy => h y (by simp [hy]))
      simp only [List.cons_append, List.find?]
      rw [Bool.eq_false_iff.mpr hx]
      exact ih'

theorem register_ok_of_emailFree (now : Nat) (salt hashHex : String)
    (input : RegisterInput) (st : Store) (h : emailFree st input.email) :
    (register now salt hashHex input st).1 =
      .ok { id := freshId (st.users.map (·.id))
            email := input.email
            password_hash := registerDigest salt hashHex
            first_name := input.first_name
            last_name := input.last_name
            role := .customer
            created_at := now
            updated_at := now } := by
  have hany : st.users.any (fun u => u.email = input.email) = false := by
    simp only [List.any_eq_false, decide_eq_true_eq]
    intro u hu
    exact h u hu
  simp [register, hany]

/-- `addToCartInputSchema`: `variation_id`, `custom_design_text` and
`custom_design_url` are optional; the empty string is a legal
`custom_design_text` / `custom_design_url` value and `0` a legal
`variation_id` value. -/
structure AddToCartInput where
  product_id : Nat
  variation_id : Option Nat
  quantity : Nat
  custom_design_text : Option String
  custom_design_url : Option String
deriving DecidableEq, Repr

/-- JavaScript truthiness of an optional numeric field: absent and `0` are
falsy (`if (input.variation_id)` / `input.variation_id || null`). -/
def varNorm : Option Nat → Option Nat
  | none => none
  | some v => if v = 0 then none else some v

/-- JavaScript truthiness of an optional string field: absent and the empty
string are falsy (`if (input.custom_design_text)` /
`input.custom_design_text || null`). -/
def designNorm : Option String → Option String
  | none => none
  | some s => if s = "" then none else some s

/-- `cart` lookup by user: `select ... where user_id = ctx.user_id` and take
row zero. -/
def findCart (st : Store) (uid : Nat) : Option Cart :=
  (st.carts.filter (fun c => c.user_id == uid)).head?

/-- `products` lookup used by `addToCart` step 2: id matches and
`is_active = true`. -/
def findActiveProduct (st : Store) (pid : Nat) : Option Product :=
  (st.products.filter (fun p => p.id == pid && p.is_active)).head?

/-- `product_variations` lookup used by `addToCart` step 3: id and parent
product match and `is_available = true`. -/
def findAvailableVariation (st : Store) (vid pid : Nat) : Option Variation :=
  (st.variations.filter
    (fun v => v.id == vid && v.product_id == pid && v.is_available)).head?

/-- Steps 2-3 price computation of `addToCart`: the product's `base_price`,
plus the variation's `price_adjustment` when a truthy `variation_id` was
given (the variation must then exist, belong to the product and be
available). -/
def variationPrice (st : Store) (input : AddToCartInput) (base : Int) :
    Except String Int :=
  match varNorm input.variation_id with
  | none => .ok base
  | some vid =>
      match findAvailableVariation st vid input.product_id with
      | none => .error "Product variation not found or unavailable"
      | some v => .ok (base + v.price_adjustment)

/-- The merge condition of `addToCart` step 4: the stored line agrees with
the input on cart, product, and the truthiness-normalised variation and
custom-design fields (a falsy input field is compared with `isNull`). -/
def matchCond (cartId : Nat) (input : AddToCartInput) (ci : CartItem) : Bool :=
  ci.cart_id == cartId && ci.product_id == input.product_id &&
  ci.variation_id == varNorm input.variation_id &&
  ci.custom_design_text == designNorm input.custom_design_text &&
  ci.custom_design_url == designNorm input.custom_design_url

/-- The row `addToCart` step 5b inserts: truthiness-normalised variation and
design fields (`input.x || null`) and the freshly computed unit price. -/
def newCartItem (now : Nat) (input : AddToCartInput) (cartId : Nat)
    (price : Int) (st : Store) : CartItem :=
  { id := freshId (st.cartItems.map (·.id))
    cart_id := cartId
    product_id := input.product_id
    variation_id := varNorm input.variation_id
    quantity := input.quantity
    custom_design_text := designNorm input.custom_design_text
    custom_design_url := designNorm input.custom_design_url
    unit_price := price
    created_at := now }

/-- `addToCart` (`src/server/src/handlers/cart/add_to_cart.ts`): lazily
create the user's cart, validate the product (active) and the variation
(owned by the product and available), then either merge into the first
matching line (add quantities, refresh unit price) or insert a new line.
The statements are not wrapped in a transaction, so the lazily created cart
survives a later validation failure. -/
def addToCart (now : Nat) (input : AddToCartInput) (ctx : AuthContext)
    (st : Store) : Except String CartItem × Store :=
  let step1 : Nat × Store :=
    match findCart st ctx.user_id with
    | some c => (c.id, st)
    | none =>
        let cid := freshId (st.carts.map (·.id))
        (cid, { st with carts := st.carts ++
            [{ id := cid, user_id := ctx.user_id, created_at := now,
               updated_at := now }] })
  let cartId := step1.1
  let st1 := step1.2
  match findActiveProduct st1 input.product_id with
  | none => (.error "Product not found or inactive", st1)
  | some p =>
      match variationPrice st1 input p.base_price with
      | .error e => (.error e, st1)
      | .ok price =>
          match (st1.cartItems.filter (matchCond cartId input)).head? with
          | some e =>
              let merged : CartItem :=
                { e with quantity := e.quantity + input.quantity,
                         unit_price := price }
              (.ok merged,
               { st1 with cartItems := st1.cartItems.map (fun ci =>
                   if ci.id == e.id then
                     { ci with quantity := e.quantity + input.quantity,
                               unit_price := price }
                   else ci) })
          | none =>
              let item := newCartItem now input cartId price st1
              (.ok item, { st1 with cartItems := st1.cartItems ++ [item] })

/-- Claim C5 as stated by the spec (to be refuted): whenever `addToCart`
succeeds and no existing line agrees with the input on the raw values of
(product_id, variation_id, custom_design_text, custom_design_url) — null
matching null — a separate new line is inserted. -/
def claimC5InsertOnMismatch : Prop :=
  ∀ (now : Nat) (input : AddToCartInput) (ctx : AuthContext) (st : Store)
    (item : CartItem) (st' : Store),
    addToCart now input ctx st = (.ok item, st') →
    (∀ ci ∈ st.cartItems,
      ¬ (ci.product_id = input.product_id ∧
         ci.variation_id = input.variation_id ∧
         ci.custom_design_text = input.custom_design_text ∧
         ci.custom_design_url = input.custom_design_url)) →
    st'.cartItems.length = st.cartItems.length + 1

/-- Claim C5 counterexample: the store holds one line with
`custom_design_text = null`; adding the same product with
`custom_design_text = ""` (a differing value, allowed by the zod schema)
does not insert a second line — the source treats the empty string as falsy
and merges it with the null-design line, refuting the raw-value merge rule
of the claim. -/
theorem C5_empty_design_merges_with_null : ¬ claimC5InsertOnMismatch := by
  intro h
  have := h 5
    { product_id := 1, variation_id := none, quantity := 3,
      custom_design_text := some "", custom_design_url := none }
    { user_id := 1, role := .customer }
    { users := [], products :=
        [{ id := 1, name := "Shirt", description := "d", type := .shirt,
           gender := none, base_price := 1000, image_url := none,
           is_active := true, created_at := 0, updated_at := 0 }],
      variations := [],
      carts := [{ id := 1, user_id := 1, created_at := 0, updated_at := 0 }],
      cartItems :=
        [{ id := 1, cart_id := 1, product_id := 1, variation_id := none,
           quantity := 2, custom_design_text := none,
           custom_design_url := none, unit_price := 1000, created_at := 0 }],
      orders := [], orderItems := [], addresses := [] }
    { id := 1, cart_id := 1, product_id := 1, variation_id := none,
      quantity := 5, custom_design_text := none, custom_design_url := none,
      unit_price := 1000, created_at := 0 }
    { users := [], products :=
        [{ id := 1, name := "Shirt", description := "d", type := .shirt,
           gender := none, base_price := 1000, image_url := none,
           is_active := true, created_at := 0, updated_at := 0 }],
      variations := [],
      carts := [{ id := 1, user_id := 1, created_at := 0, updated_at := 0 }],
      cartItems :=
        [{ id := 1, cart_id := 1, product_id := 1, variation_id := none,
           quantity := 5, custom_design_text := none,
           custom_design_url := none, unit_price := 1000, created_at := 0 }],
      orders := [], orderItems := [], addresses := [] }
    rfl (by decide)
  simp at this

/-- Claim C5 (amended): when the user's cart exists, the product is active
and the (truthy) variation resolves, `addToCart` merges into the first line
matching on (product_id, variation_id, custom_design_text,
custom_design_url) after JavaScript-truthiness normalisation — absent,
null, `0` and the empty string all compare as null — adding the input
quantity to that line and refreshing its unit price to the current
`base_price` plus `price_adjustment`; exactly when no line matches the
normalised fields it inserts a separate new line carrying the normalised
values. Distinct truthy (non-empty) custom-design values therefore never
merge, but an empty-string design value is treated as null and merges with
a null-design line. -/
theorem C5_addToCart_merges_on_normalized_match (now : Nat)
    (input : AddToCartInput) (ctx : AuthContext) (st : Store) (c : Cart)
    (p : Product) (price : Int)
    (hc : findCart st ctx.user_id = some c)
    (hp : findActiveProduct st input.product_id = some p)
    (hv : variationPrice st input p.base_price = .ok price) :
    (∀ e, (st.cartItems.filter (matchCond c.id input)).head? = some e →
        addToCart now input ctx st =
          (.ok { e with quantity := e.quantity + input.quantity,
                        unit_price := price },
           { st with cartItems := st.cartItems.map (fun ci =>
               if ci.id == e.id then
                 { ci with quantity := e.quantity + input.quantity,
                           unit_price := price }
               else ci) }))
    ∧ ((st.cartItems.filter (matchCond c.id input)).head? = none →
        addToCart now input ctx st =
          (.ok (newCartItem now input c.id price st),
           { st with cartItems :=
               st.cartItems ++ [newCartItem now input c.id price st] })) := by
  constructor
  · intro e he
    simp only [addToCart, hc, hp, hv, he]
  · intro he
    simp only [addToCart, hc, hp, hv, he]

/-- Claim C5 witness: in a concrete store with one null-design line,
`addToCart` with a matching product and an empty-string design merges into
that line (quantity 2 + 3 = 5, price refreshed to the current base price). -/
theorem C5_addToCart_merges_witness :
    addToCart 5
      { product_id := 1, variation_id := none, quantity := 3,
        custom_design_text := some "", custom_design_url := none }
      { user_id := 1, role := .customer }
      { users := [], products :=
          [{ id := 1, name := "Shirt", description := "d", type := .shirt,
             gender := none, base_price := 1200, image_url := none,
             is_active := true, created_at := 0, updated_at := 0 }],
        variations := [],
        carts := [{ id := 1, user_id := 1, created_at := 0, updated_at := 0 }],
        cartItems :=
          [{ id := 1, cart_id := 1, product_id := 1, variation_id := none,
             quantity := 2, custom_design_text := none,
             custom_design_url := none, unit_price := 1000, created_at := 0 }],
        orders := [], orderItems := [], addresses := [] } =
      (.ok { id := 1, cart_id := 1, product_id := 1, variation_id := none,
             quantity := 5, custom_design_text := none,
             custom_design_url := none, unit_price := 1200, created_at := 0 },
       { users := [], products :=
           [{ id := 1, name := "Shirt", description := "d", type := .shirt,
              gender := none, base_price := 1200, image_url := none,
              is_active := true, created_at := 0, updated_at := 0 }],
         variations := [],
         carts := [{ id := 1, user_id := 1, created_at := 0, updated_at := 0 }],
         cartItems :=
           [{ id := 1, cart_id := 1, product_id := 1, variation_id := none,
              quantity := 5, custom_design_text := none,
              custom_design_url := none, unit_price := 1200, created_at := 0 }],
         orders := [], orderItems := [], addresses := [] }) := by
  have h := C5_addToCart_merges_on_normalized_match 5
    { product_id := 1, variation_id := none, quantity := 3,
      custom_design_text := some "", custom_design_url := none }
    { user_id := 1, role := .customer }
    { users := [], products :=
        [{ id := 1, name := "Shirt", description := "d", type := .shirt,
           gender := none, base_price := 1200, image_url := none,
           is_active := true, created_at := 0, updated_at := 0 }],
      variations := [],
      carts := [{ id := 1, user_id := 1, created_at := 0, updated_at := 0 }],
      cartItems :=
        [{ id := 1, cart_id := 1, product_id := 1, variation_id := none,
           quantity := 2, custom_design_text := none,
           custom_design_url := none, unit_price := 1000, created_at := 0 }],
      orders := [], orderItems := [], addresses := [] }
    { id := 1, user_id := 1, created_at := 0, updated_at := 0 }
    { id := 1, name := "Shirt", description := "d", type := .shirt,
      gender := none, base_price := 1200, image_url := none,
      is_active := true, created_at := 0, updated_at := 0 }
    1200 rfl rfl rfl
  exact h.1
    { id := 1, cart_id := 1, product_id := 1, variation_id := none,
      quantity := 2, custom_design_text := none, custom_design_url := none,
      unit_price := 1000, created_at := 0 } rfl

theorem mem_le_foldrMax (ids : List Nat) : ∀ x ∈ ids, x ≤ ids.foldr max 0 := by
  induction ids with
  | nil => intro x hx; simp at hx
  | cons a l ih =>
      intro x hx
      rcases List.mem_cons.mp hx with h | h
      · subst h; exact le_max_left _ _
      · exact le_trans (ih x h) (le_max_right _ _)

theorem ne_freshId {ids : List Nat} {x : Nat} (hx : x ∈ ids) :
    x ≠ freshId ids := by
  have := mem_le_foldrMax ids x hx
  unfold freshId
  omega

/-- Claim C10: for a user with no cart, `addToCart` naming a product that is
absent or inactive throws, yet the lazily created cart row survives — the
result store appends a cart row for the user (so it differs from the input
store) and that cart has no items. The FK hypothesis `hfk` (every cart item
references an existing cart, enforced by the schema's foreign key) makes
the fresh cart empty. -/
theorem C10_addToCart_failure_keeps_fresh_cart (now : Nat)
    (input : AddToCartInput) (ctx : AuthContext) (st : Store)
    (hnc : findCart st ctx.user_id = none)
    (hbad : findActiveProduct st input.product_id = none)
    (hfk : ∀ ci ∈ st.cartItems, ∃ c ∈ st.carts, c.id = ci.cart_id) :
    addToCart now input ctx st =
      (.error "Product not found or inactive",
       { st with carts := st.carts ++
           [{ id := freshId (st.carts.map (·.id)), user_id := ctx.user_id,
              created_at := now, updated_at := now }] })
    ∧ (addToCart now input ctx st).2.cartItems.filter
        (fun ci => ci.cart_id == freshId (st.carts.map (·.id))) = []
    ∧ (addToCart now input ctx st).2 ≠ st := by
  have hbad' : findActiveProduct
      { st with carts := st.carts ++
          [{ id := freshId (st.carts.map (·.id)), user_id := ctx.user_id,
             created_at := now, updated_at := now }] }
      input.product_id = none := hbad
  have hmain : addToCart now input ctx st =
      (.error "Product not found or inactive",
       { st with carts := st.carts ++
           [{ id := freshId (st.carts.map (·.id)), user_id := ctx.user_id,
              created_at := now, updated_at := now }] }) := by
    simp only [addToCart, hnc]
    simp only [hbad']
  refine ⟨hmain, ?_, ?_⟩
  · rw [hmain]
    apply List.filter_eq_nil_iff.mpr
    intro ci hci
    obtain ⟨c, hc, hcid⟩ := hfk ci hci
    have hmem : c.id ∈ st.carts.map (·.id) := List.mem_map.mpr ⟨c, hc, rfl⟩
    have hne := ne_freshId hmem
    simp only [beq_iff_eq]
    rw [← hcid]
    exact hne
  · rw [hmain]
    intro hcontra
    have hlen := congrArg (fun s => s.carts.length) hcontra
    simp at hlen

/-- Claim C10 witness: on an empty store, adding a nonexistent product
throws, yet the user gains an (empty) cart row. -/
theorem C10_addToCart_failure_keeps_fresh_cart_witness :
    addToCart 7
      { product_id := 9, variation_id := none, quantity := 1,
        custom_design_text := none, custom_design_url := none }
      { user_id := 1, role := .customer }
      { users := [], products := [], variations := [], carts := [],
        cartItems := [], orders := [], orderItems := [], addresses := [] } =
      (.error "Product not found or inactive",
       { users := [], products := [], variations := [],
         carts := [{ id := 1, user_id := 1, created_at := 7, updated_at := 7 }],
         cartItems := [], orders := [], orderItems := [], addresses := [] }) := by
  have h := C10_addToCart_failure_keeps_fresh_cart 7
    { product_id := 9, variation_id := none, quantity := 1,
      custom_design_text := none, custom_design_url := none }
    { user_id := 1, role := .customer }
    { users := [], products := [], variations := [], carts := [],
      cartItems := [], orders := [], orderItems := [], addresses := [] }
    rfl rfl (by intro ci hci; simp at hci)
  exact h.1

/-- `updateCartItemInputSchema`: `quantity` optional, the design fields
optional and nullable (absent, null and a string are three distinct
states). -/
structure UpdateCartItemInput where
  cart_item_id : Nat
  quantity : Option Nat
  custom_design_text : Option (Option String)
  custom_design_url : Option (Option String)
deriving DecidableEq, Repr

/-- Ownership join of `updateCartItem` / `removeFromCart`: a cart item with
the id whose cart belongs to the user. -/
def cartItemOwned (st : Store) (itemId uid : Nat) : Bool :=
  st.cartItems.any (fun ci => ci.id == itemId &&
    st.carts.any (fun c => c.id == ci.cart_id && c.user_id == uid))

/-- The partial update of `updateCartItem`: apply exactly the provided
fields (`!== undefined`). -/
def cartItemPatch (input : UpdateCartItemInput) (ci : CartItem) : CartItem :=
  let ci1 := match input.quantity with
    | some q => { ci with quantity := q }
    | none => ci
  let ci2 := match input.custom_design_text with
    | some t => { ci1 with custom_design_text := t }
    | none => ci1
  match input.custom_design_url with
  | some u => { ci2 with custom_design_url := u }
  | none => ci2

/-- `updateCartItem` (`src/unnamed/part_014`): quantity exactly 0 deletes
the (owned) row and returns a sentinel object with zeroed linkage fields;
otherwise the provided fields are applied to the owned row. -/
def updateCartItem (now : Nat) (input : UpdateCartItemInput)
    (ctx : AuthContext) (st : Store) : Except String CartItem × Store :=
  if input.quantity = some 0 then
    if cartItemOwned st input.cart_item_id ctx.user_id then
      (.ok { id := input.cart_item_id, cart_id := 0, product_id := 0,
             variation_id := none, quantity := 0,
             custom_design_text := none, custom_design_url := none,
             unit_price := 0, created_at := now },
       { st with cartItems :=
           st.cartItems.filter (fun ci => ci.id != input.cart_item_id) })
    else (.error "Cart item not found or unauthorized", st)
  else
    let cond := fun (ci : CartItem) => ci.id == input.cart_item_id &&
      st.carts.any (fun c => c.id == ci.cart_id && c.user_id == ctx.user_id)
    match (st.cartItems.filter cond).head? with
    | none => (.error "Cart item not found or unauthorized", st)
    | some target =>
        (.ok (cartItemPatch input target),
         { st with cartItems := st.cartItems.map (fun ci =>
             if cond ci then cartItemPatch input ci else ci) })

/-- `removeFromCart` (`src/server/src/handlers/cart/remove_from_cart.ts`):
join the cart item with its cart, return false if absent or owned by a
different user, otherwise delete by item id and report whether a row went. -/
def removeFromCart (cartItemId : Nat) (ctx : AuthContext) (st : Store) :
    Bool × Store :=
  let rows := st.cartItems.filterMap (fun ci =>
    if ci.id == cartItemId then
      (st.carts.find? (fun c => c.id == ci.cart_id)).map (fun c => (ci, c))
    else none)
  match rows.head? with
  | none => (false, st)
  | some (_, c) =>
      if c.user_id == ctx.user_id then
        (decide (0 < (st.cartItems.filter
            (fun x => x.id == cartItemId)).length),
         { st with cartItems :=
             st.cartItems.filter (fun x => x.id != cartItemId) })
      else (false, st)

/-- `deleteAddress` (`src/unnamed/part_016`): one delete filtered on address
id and owning user; report whether any row was removed. -/
def deleteAddress (addressId : Nat) (ctx : AuthContext) (st : Store) :
    Bool × Store :=
  (decide (0 < (st.addresses.filter
      (fun a => a.id == addressId && a.user_id == ctx.user_id)).length),
   { st with addresses := st.addresses.filter (fun a =>
       !(a.id == addressId && a.user_id == ctx.user_id)) })

/-- Order item joined with its product (kept only when the product exists,
per `items.filter(item => item.product !== null)`) and optional variation. -/
structure OrderItemDetail where
  item : OrderItem
  product : Product
  variation : Option Variation
deriving DecidableEq, Repr

/-- `orderWithItemsSchema` result shape of `getOrderById`. -/
structure OrderWithItems where
  order : Order
  items : List OrderItemDetail
deriving DecidableEq, Repr

/-- The items list `getOrderById` builds for an order id: the order's items
left-joined with products and variations, rows without a product dropped. -/
def orderItemsDetailed (st : Store) (orderId : Nat) : List OrderItemDetail :=
  (st.orderItems.filter (fun oi => oi.order_id == orderId)).filterMap
    (fun oi =>
      match st.products.find? (fun p => p.id == oi.product_id) with
      | none => none
      | some p =>
          some { item := oi, product := p,
                 variation := oi.variation_id.bind (fun vid =>
                   st.variations.find? (fun v => v.id == vid)) })

/-- `getOrderById` (`src/server/src/handlers/orders/get_order_by_id.ts`):
admins look up by id alone, everyone else by id and owner; `null` when no
row matches; otherwise the order with its detailed items. -/
def getOrderById (orderId : Nat) (ctx : AuthContext) (st : Store) :
    Option OrderWithItems :=
  let matching := if ctx.role = Role.admin then
      st.orders.filter (fun o => o.id == orderId)
    else
      st.orders.filter (fun o => o.id == orderId && o.user_id == ctx.user_id)
  match matching.head? with
  | none => none
  | some o => some { order := o, items := orderItemsDetailed st orderId }

/-- Claim C7: for a cart item owned (via its cart) by the calling user,
`updateCartItem` with quantity exactly 0 deletes the row from storage and
returns, not an error, a cart-item object carrying the input id with zeroed
linkage fields: cart_id 0, product_id 0, variation_id null, quantity 0,
unit_price 0. -/
theorem C7_updateCartItem_quantity_zero_deletes (now : Nat)
    (input : UpdateCartItemInput) (ctx : AuthContext) (st : Store)
    (hq : input.quantity = some 0)
    (hown : cartItemOwned st input.cart_item_id ctx.user_id = true) :
    updateCartItem now input ctx st =
      (.ok { id := input.cart_item_id, cart_id := 0, product_id := 0,
             variation_id := none, quantity := 0,
             custom_design_text := none, custom_design_url := none,
             unit_price := 0, created_at := now },
       { st with cartItems :=
           st.cartItems.filter (fun ci => ci.id != input.cart_item_id) }) := by
  simp [updateCartItem, hq, hown]

/-- Claim C7 witness: deleting a concrete owned line by setting quantity 0. -/
theorem C7_updateCartItem_quantity_zero_deletes_witness :
    updateCartItem 9
      { cart_item_id := 3, quantity := some 0,
        custom_design_text := none, custom_design_url := none }
      { user_id := 1, role := .customer }
      { users := [], products := [], variations := [],
        carts := [{ id := 1, user_id := 1, created_at := 0, updated_at := 0 }],
        cartItems :=
          [{ id := 3, cart_id := 1, product_id := 1, variation_id := none,
             quantity := 2, custom_design_text := none,
             custom_design_url := none, unit_price := 1000, created_at := 0 }],
        orders := [], orderItems := [], addresses := [] } =
      (.ok { id := 3, cart_id := 0, product_id := 0, variation_id := none,
             quantity := 0, custom_design_text := none,
             custom_design_url := none, unit_price := 0, created_at := 9 },
       { users := [], products := [], variations := [],
         carts := [{ id := 1, user_id := 1, created_at := 0, updated_at := 0 }],
         cartItems := [], orders := [], orderItems := [], addresses := [] }) := by
  have h := C7_updateCartItem_quantity_zero_deletes 9
    { cart_item_id := 3, quantity := some 0,
      custom_design_text := none, custom_design_url := none }
    { user_id := 1, role := .customer }
    { users := [], products := [], variations := [],
      carts := [{ id := 1, user_id := 1, created_at := 0, updated_at := 0 }],
      cartItems :=
        [{ id := 3, cart_id := 1, product_id := 1, variation_id := none,
           quantity := 2, custom_design_text := none,
           custom_design_url := none, unit_price := 1000, created_at := 0 }],
      orders := [], orderItems := [], addresses := [] }
    rfl (by decide)
  rw [h]
  rfl

/-- Claim C8: `removeFromCart` on a cart item that does not exist or whose
cart belongs to a different user, and `deleteAddress` on an address that
does not exist or belongs to a different user, both return `false` without
throwing, and the store is returned unchanged — in particular the foreign
row survives with all its fields intact. -/
theorem C8_cross_user_delete_returns_false_state_unchanged :
    (∀ (cartItemId : Nat) (ctx : AuthContext) (st : Store),
       (∀ ci ∈ st.cartItems, ci.id = cartItemId →
          ∀ c ∈ st.carts, c.id = ci.cart_id → c.user_id ≠ ctx.user_id) →
       removeFromCart cartItemId ctx st = (false, st))
    ∧ (∀ (addressId : Nat) (ctx : AuthContext) (st : Store),
       (∀ a ∈ st.addresses, a.id = addressId → a.user_id ≠ ctx.user_id) →
       deleteAddress addressId ctx st = (false, st)) := by
  constructor
  · intro cartItemId ctx st h
    cases hh : (st.cartItems.filterMap (fun ci =>
        if ci.id == cartItemId then
          (st.carts.find? (fun c => c.id == ci.cart_id)).map (fun c => (ci, c))
        else none)).head? with
    | none => simp only [removeFromCart, hh]
    | some pc =>
        obtain ⟨ci, c⟩ := pc
        have hmem : (ci, c) ∈ st.cartItems.filterMap (fun ci =>
            if ci.id == cartItemId then
              (st.carts.find? (fun c => c.id == ci.cart_id)).map
                (fun c => (ci, c))
            else none) :=
          List.mem_of_mem_head? (by rw [hh]; exact Option.mem_some_self _)
        obtain ⟨a, ha, hfa⟩ := List.mem_filterMap.mp hmem
        by_cases hid : a.id == cartItemId
        · rw [if_pos hid] at hfa
          obtain ⟨c', hc', hcc⟩ := Option.map_eq_some'.mp hfa
          have hcmem : c' ∈ st.carts := List.mem_of_find?_eq_some hc'
          have hpred : (c'.id == a.cart_id) = true := by
            have h0 := List.find?_some hc'
            simpa using h0
          have hneq : c'.user_id ≠ ctx.user_id :=
            h a ha (by simpa using hid) c' hcmem (by simpa using hpred)
          have hceq : c' = c := congrArg Prod.snd hcc
          have hfalse : (c.user_id == ctx.user_id) = false :=
            beq_eq_false_iff_ne.mpr (hceq ▸ hneq)
          simp only [removeFromCart, hh, hfalse]
          simp
        · rw [if_neg hid] at hfa
          simp at hfa
  · intro addressId ctx st h
    have h1 : st.addresses.filter
        (fun a => a.id == addressId && a.user_id == ctx.user_id) = [] := by
      apply List.filter_eq_nil_iff.mpr
      intro a ha
      simp only [Bool.and_eq_true, beq_iff_eq, not_and]
      intro hid
      exact h a ha hid
    have h2 : st.addresses.filter (fun a =>
        !(a.id == addressId && a.user_id == ctx.user_id)) = st.addresses := by
      apply List.filter_eq_self.mpr
      intro a ha
      simp only [Bool.not_eq_eq_eq_not, Bool.not_true, Bool.and_eq_false_iff]
      by_cases hid : a.id = addressId
      · right
        exact beq_eq_false_iff_ne.mpr (h a ha hid)
      · left
        exact beq_eq_false_iff_ne.mpr hid
    simp only [deleteAddress, h1, h2]
    simp

/-- Claim C8 witness: user 1 fails to remove user 2's cart item and user 2's
address; both calls return `false` and leave the store intact. -/
theorem C8_cross_user_delete_witness :
    removeFromCart 4 { user_id := 1, role := .customer }
      { users := [], products := [], variations := [],
        carts := [{ id := 7, user_id := 2, created_at := 0, updated_at := 0 }],
        cartItems :=
          [{ id := 4, cart_id := 7, product_id := 1, variation_id := none,
             quantity := 1, custom_design_text := none,
             custom_design_url := none, unit_price := 500, created_at := 0 }],
        orders := [], orderItems := [],
        addresses :=
          [{ id := 6, user_id := 2, type := .shipping, first_name := "A",
             last_name := "B", street_address := "s", city := "c",
             state := "st", postal_code := "p", country := "x",
             phone := none, is_default := true, created_at := 0 }] } =
      (false,
       { users := [], products := [], variations := [],
         carts := [{ id := 7, user_id := 2, created_at := 0, updated_at := 0 }],
         cartItems :=
           [{ id := 4, cart_id := 7, product_id := 1, variation_id := none,
              quantity := 1, custom_design_text := none,
              custom_design_url := none, unit_price := 500, created_at := 0 }],
         orders := [], orderItems := [],
         addresses :=
           [{ id := 6, user_id := 2, type := .shipping, first_name := "A",
              last_name := "B", street_address := "s", city := "c",
              state := "st", postal_code := "p", country := "x",
              phone := none, is_default := true, created_at := 0 }] })
    ∧ deleteAddress 6 { user_id := 1, role := .customer }
      { users := [], products := [], variations := [], carts := [],
        cartItems := [], orders := [], orderItems := [],
        addresses :=
          [{ id := 6, user_id := 2, type := .shipping, first_name := "A",
             last_name := "B", street_address := "s", city := "c",
             state := "st", postal_code := "p", country := "x",
             phone := none, is_default := true, created_at := 0 }] } =
      (false,
       { users := [], products := [], variations := [], carts := [],
         cartItems := [], orders := [], orderItems := [],
         addresses :=
           [{ id := 6, user_id := 2, type := .shipping, first_name := "A",
              last_name := "B", street_address := "s", city := "c",
              state := "st", postal_code := "p", country := "x",
              phone := none, is_default := true, created_at := 0 }] }) := by
  constructor
  · exact C8_cross_user_delete_returns_false_state_unchanged.1 4
      { user_id := 1, role := .customer } _ (by decide)
  · exact C8_cross_user_delete_returns_false_state_unchanged.2 6
      { user_id := 1, role := .customer } _ (by decide)

/-- Claim C9: for a non-admin context, `getOrderById` returns `null` both
when no order with the id exists and when one exists but belongs to another
user — the two store states produce the same observable result, leaking no
existence information; for an admin context the first order with the id is
returned with its items regardless of owner. -/
theorem C9_getOrderById_owner_scoping :
    (∀ (orderId : Nat) (ctx : AuthContext) (st : Store),
       ctx.role ≠ Role.admin →
       (∀ o ∈ st.orders, o.id ≠ orderId) →
       getOrderById orderId ctx st = none)
    ∧ (∀ (orderId : Nat) (ctx : AuthContext) (st : Store),
       ctx.role ≠ Role.admin →
       (∀ o ∈ st.orders, o.id = orderId → o.user_id ≠ ctx.user_id) →
       getOrderById orderId ctx st = none)
    ∧ (∀ (orderId : Nat) (ctx : AuthContext) (st : Store) (o : Order),
       ctx.role = Role.admin →
       (st.orders.filter (fun o => o.id == orderId)).head? = some o →
       getOrderById orderId ctx st =
         some { order := o, items := orderItemsDetailed st orderId }) := by
  refine ⟨?_, ?_, ?_⟩
  · intro orderId ctx st hrole h
    have hfil : st.orders.filter
        (fun o => o.id == orderId && o.user_id == ctx.user_id) = [] := by
      apply List.filter_eq_nil_iff.mpr
      intro o ho
      simp only [Bool.and_eq_true, beq_iff_eq, not_and]
      intro hid
      exact absurd hid (h o ho)
    simp only [getOrderById, if_neg hrole, hfil]
    simp
  · intro orderId ctx st hrole h
    have hfil : st.orders.filter
        (fun o => o.id == orderId && o.user_id == ctx.user_id) = [] := by
      apply List.filter_eq_nil_iff.mpr
      intro o ho
      simp only [Bool.and_eq_true, beq_iff_eq, not_and]
      exact h o ho
    simp only [getOrderById, if_neg hrole, hfil]
    simp
  · intro orderId ctx st o hrole hhead
    simp only [getOrderById, if_pos hrole, hhead]

/-- Claim C9 witness: order 1 belongs to user 2; user 1 (customer) gets
`null` both on that store and on a store with no order at all, while an
admin retrieves the order. -/
theorem C9_getOrderById_owner_scoping_witness :
    getOrderById 1 { user_id := 1, role := .customer }
      { users := [], products := [], variations := [], carts := [],
        cartItems := [],
        orders :=
          [{ id := 1, user_id := 2, order_number := "ORD-1-2",
             status := .pending, total_amount := 100,
             shipping_address := "s", billing_address := "b",
             payment_method := "paypal", payment_status := "pending",
             created_at := 0, updated_at := 0 }],
        orderItems := [], addresses := [] } = none
    ∧ getOrderById 1 { user_id := 1, role := .customer }
      { users := [], products := [], variations := [], carts := [],
        cartItems := [], orders := [], orderItems := [], addresses := [] } =
        none
    ∧ getOrderById 1 { user_id := 1, role := .admin }
      { users := [], products := [], variations := [], carts := [],
        cartItems := [],
        orders :=
          [{ id := 1, user_id := 2, order_number := "ORD-1-2",
             status := .pending, total_amount := 100,
             shipping_address := "s", billing_address := "b",
             payment_method := "paypal", payment_status := "pending",
             created_at := 0, updated_at := 0 }],
        orderItems := [], addresses := [] } =
        some { order :=
                 { id := 1, user_id := 2, order_number := "ORD-1-2",
                   status := .pending, total_amount := 100,
                   shipping_address := "s", billing_address := "b",
                   payment_method := "paypal", payment_status := "pending",
                   created_at := 0, updated_at := 0 },
               items := [] } := by
  refine ⟨?_, ?_, ?_⟩
  · exact C9_getOrderById_owner_scoping.2.1 1
      { user_id := 1, role := .customer } _ (by decide) (by decide)
  · exact C9_getOrderById_owner_scoping.1 1
      { user_id := 1, role := .customer } _ (by decide) (by decide)
  · exact C9_getOrderById_owner_scoping.2.2 1
      { user_id := 1, role := .admin } _
      { id := 1, user_id := 2, order_number := "ORD-1-2",
        status := .pending, total_amount := 100,
        shipping_address := "s", billing_address := "b",
        payment_method := "paypal", payment_status := "pending",
        created_at := 0, updated_at := 0 }
      rfl rfl

/-- `createOrderInputSchema`. -/
structure CreateOrderInput where
  shipping_address : String
  billing_address : String
  payment_method : String
deriving DecidableEq, Repr

/-- The mock payment gateway of `createOrder` (`src/unnamed/part_011` lines
132-144): success exactly for credit_card, debit_card and paypal; the
amount is ignored. -/
def processPayment (paymentMethod : String) (amount : Int) : Bool :=
  paymentMethod == "credit_card" || paymentMethod == "debit_card" ||
  paymentMethod == "paypal"

/-- The cart lines `createOrder` loads: items of the cart inner-joined with
products (a line survives only if its product row exists; the variation
left join never filters). -/
def cartLines (st : Store) (cartId : Nat) : List CartItem :=
  st.cartItems.filter (fun ci => ci.cart_id == cartId &&
    st.products.any (fun p => p.id == ci.product_id))

/-- Step 2 of `createOrder`: `Σ unit_price × quantity` over the loaded
lines, using only the snapshotted `unit_price` stored on each cart item. -/
def orderTotal (lines : List CartItem) : Int :=
  lines.foldl (fun acc ci => acc + ci.unit_price * (ci.quantity : Int)) 0

/-- Step 3 of `createOrder`: the time-and-user order number. -/
def orderNumberOf (now uid : Nat) : String :=
  "ORD-" ++ toString now ++ "-" ++ toString uid

/-- Step 5 of `createOrder`: one frozen order item per cart line, serial ids
assigned in sequence, `total_price = unit_price × quantity`. -/
def mkOrderItems (orderId : Nat) (baseId : Nat) :
    List CartItem → List OrderItem
  | [] => []
  | ci :: rest =>
      { id := baseId
        order_id := orderId
        product_id := ci.product_id
        variation_id := ci.variation_id
        quantity := ci.quantity
        custom_design_text := ci.custom_design_text
        custom_design_url := ci.custom_design_url
        unit_price := ci.unit_price
        total_price := ci.unit_price * (ci.quantity : Int) } ::
      mkOrderItems orderId (baseId + 1) rest

/-- `createOrder` (`src/unnamed/part_011`): find the user's cart, load its
lines, compute the total from the snapshotted unit prices, insert the
pending order, insert one order item per line, delete the cart's items
(cart row kept), run the mock payment, and set the final status
(processing/completed on success, cancelled/failed on rejection). The
source runs these as separate awaited statements with no `db.transaction`. -/
def createOrder (now : Nat) (input : CreateOrderInput) (ctx : AuthContext)
    (st : Store) : Except String Order × Store :=
  match findCart st ctx.user_id with
  | none => (.error "User cart not found", st)
  | some cart =>
      let lines := cartLines st cart.id
      if lines.isEmpty then (.error "Cart is empty", st)
      else
        let total := orderTotal lines
        let order : Order :=
          { id := freshId (st.orders.map (·.id))
            user_id := ctx.user_id
            order_number := orderNumberOf now ctx.user_id
            status := .pending
            total_amount := total
            shipping_address := input.shipping_address
            billing_address := input.billing_address
            payment_method := input.payment_method
            payment_status := "pending"
            created_at := now
            updated_at := now }
        let st1 := { st with orders := st.orders ++ [order] }
        let newItems :=
          mkOrderItems order.id (freshId (st1.orderItems.map (·.id))) lines
        let st2 := { st1 with orderItems := st1.orderItems ++ newItems }
        let st3 := { st2 with cartItems :=
          st2.cartItems.filter (fun ci => ci.cart_id != cart.id) }
        let success := processPayment input.payment_method total
        let finalStatus : OrderStatus :=
          if success then .processing else .cancelled
        let payStatus := if success then "completed" else "failed"
        let st4 := { st3 with orders := st3.orders.map (fun o =>
          if o.id == order.id then
            { o with status := finalStatus, payment_status := payStatus,
                     updated_at := now }
          else o) }
        (.ok { order with status := finalStatus, payment_status := payStatus,
                          updated_at := now }, st4)

/-- The store an execution of `createOrder` leaves behind when it is aborted
right after step 4 (the order insert) — e.g. the order-items insert fails
or the request is cancelled. The source issues its statements as
independent awaited autocommitting writes with no `db.transaction`, so the
inserted order row survives such an abort while the order items were never
written and the cart was never cleared. -/
def createOrderAbortedAfterOrderInsert (now : Nat) (input : CreateOrderInput)
    (ctx : AuthContext) (st : Store) : Store :=
  match findCart st ctx.user_id with
  | none => st
  | some cart =>
      let lines := cartLines st cart.id
      if lines.isEmpty then st
      else
        { st with orders := st.orders ++
            [{ id := freshId (st.orders.map (·.id))
               user_id := ctx.user_id
               order_number := orderNumberOf now ctx.user_id
               status := .pending
               total_amount := orderTotal lines
               shipping_address := input.shipping_address
               billing_address := input.billing_address
               payment_method := input.payment_method
               payment_status := "pending"
               created_at := now
               updated_at := now }] }

theorem mkOrderItems_order_id (orderId : Nat) (lines : List CartItem) :
    ∀ baseId, ∀ oi ∈ mkOrderItems orderId baseId lines,
      oi.order_id = orderId := by
  induction lines with
  | nil => intro baseId oi hoi; simp [mkOrderItems] at hoi
  | cons ci rest ih =>
      intro baseId oi hoi
      rcases List.mem_cons.mp hoi with h | h
      · subst h; rfl
      · exact ih (baseId + 1) oi h

theorem mkOrderItems_length (orderId : Nat) (lines : List CartItem) :
    ∀ baseId, (mkOrderItems orderId baseId lines).length = lines.length := by
  induction lines with
  | nil => intro baseId; rfl
  | cons ci rest ih =>
      intro baseId
      simp only [mkOrderItems, List.length_cons]
      rw [ih (baseId + 1)]

theorem map_id_of_mem_eq {α : Type} (l : List α) (f : α → α)
    (h : ∀ a ∈ l, f a = a) : l.map f = l := by
  induction l with
  | nil => rfl
  | cons a rest ih =>
      simp only [List.map_cons, h a (by simp)]
      rw [ih (fun x hx => h x (by simp [hx]))]

theorem mkOrderItems_fields (orderId : Nat) (lines : List CartItem) :
    ∀ baseId,
      (mkOrderItems orderId baseId lines).map (fun oi =>
        (oi.product_id, oi.variation_id, oi.quantity, oi.unit_price,
         oi.total_price)) =
      lines.map (fun ci =>
        (ci.product_id, ci.variation_id, ci.quantity, ci.unit_price,
         ci.unit_price * (ci.quantity : Int))) := by
  induction lines with
  | nil => intro baseId; rfl
  | cons ci rest ih =>
      intro baseId
      simp only [mkOrderItems, List.map_cons]
      rw [ih (baseId + 1)]

/-- Claim C2: for a user whose cart exists and has lines, `createOrder`
returns a persisted order whose `total_amount` is `Σ unit_price × quantity`
over the cart lines using only each line's snapshotted `unit_price` (the
catalog price never enters `orderTotal`), creates exactly one order item
per line with `total_price = unit_price × quantity`, deletes exactly the
cart's items while the cart row and every other cart's items persist, and
finishes as processing/completed when the payment method is accepted by the
gateway and cancelled/failed otherwise — in both cases the order and its
items are persisted. `hfk` is the order-items foreign key of the schema. -/
theorem C2_createOrder_functional (now : Nat) (input : CreateOrderInput)
    (ctx : AuthContext) (st : Store) (cart : Cart)
    (hc : findCart st ctx.user_id = some cart)
    (hne : cartLines st cart.id ≠ [])
    (hfk : ∀ oi ∈ st.orderItems, ∃ o ∈ st.orders, o.id = oi.order_id) :
    ∃ (o : Order) (st' : Store),
      createOrder now input ctx st = (.ok o, st')
      ∧ o.total_amount = orderTotal (cartLines st cart.id)
      ∧ o.user_id = ctx.user_id
      ∧ (if processPayment input.payment_method
            (orderTotal (cartLines st cart.id)) then
           o.status = OrderStatus.processing ∧ o.payment_status = "completed"
         else
           o.status = OrderStatus.cancelled ∧ o.payment_status = "failed")
      ∧ st'.orders = st.orders ++ [o]
      ∧ st'.orderItems = st.orderItems ++
          mkOrderItems o.id (freshId (st.orderItems.map (·.id)))
            (cartLines st cart.id)
      ∧ (st'.orderItems.filter (fun oi => oi.order_id == o.id)).map (fun oi =>
          (oi.product_id, oi.variation_id, oi.quantity, oi.unit_price,
           oi.total_price)) =
        (cartLines st cart.id).map (fun ci =>
          (ci.product_id, ci.variation_id, ci.quantity, ci.unit_price,
           ci.unit_price * (ci.quantity : Int)))
      ∧ st'.cartItems = st.cartItems.filter (fun ci => ci.cart_id != cart.id)
      ∧ st'.carts = st.carts := by
  have hEmpty : (cartLines st cart.id).isEmpty = false := by
    cases hcase : cartLines st cart.id with
    | nil => exact absurd hcase hne
    | cons a as => rfl
  have hfreshO : ∀ o ∈ st.orders, o.id ≠ freshId (st.orders.map (·.id)) :=
    fun o ho => ne_freshId (List.mem_map.mpr ⟨o, ho, rfl⟩)
  simp only [createOrder, hc, hEmpty, Bool.false_eq_true, if_false]
  refine ⟨_, _, rfl, rfl, rfl, ?_, ?_, rfl, ?_, rfl, rfl⟩
  · cases hpay : processPayment input.payment_method
        (orderTotal (cartLines st cart.id)) with
    | false => simp [hpay]
    | true => simp [hpay]
  · dsimp only
    rw [List.map_append]
    congr 1
    · apply map_id_of_mem_eq
      intro o ho
      rw [if_neg]
      simp only [beq_iff_eq]
      exact hfreshO o ho
    · simp
  · dsimp only
    rw [List.filter_append]
    have hOld : st.orderItems.filter (fun oi =>
        oi.order_id == freshId (st.orders.map (·.id))) = [] := by
      apply List.filter_eq_nil_iff.mpr
      intro oi hoi
      simp only [beq_iff_eq]
      obtain ⟨o, ho, hoid⟩ := hfk oi hoi
      rw [← hoid]
      exact hfreshO o ho
    have hNew : (mkOrderItems (freshId (st.orders.map (·.id)))
        (freshId (st.orderItems.map (·.id)))
        (cartLines st cart.id)).filter (fun oi =>
          oi.order_id == freshId (st.orders.map (·.id))) =
        mkOrderItems (freshId (st.orders.map (·.id)))
          (freshId (st.orderItems.map (·.id))) (cartLines st cart.id) := by
      apply List.filter_eq_self.mpr
      intro oi hoi
      simp only [beq_iff_eq]
      exact mkOrderItems_order_id _ _ _ oi hoi
    rw [hOld, hNew, List.nil_append]
    exact mkOrderItems_fields _ _ _

/-- Claim C2 witness: the spec's own example — a cart with lines
(3499 cents × 2) and (4999 cents × 1) yields an order of 11997 cents with
two matching order items, an emptied cart, and, for the rejected method
"unsupported_method", a persisted cancelled/failed order. -/
theorem C2_createOrder_functional_witness :
    ∃ (o : Order) (st' : Store),
      createOrder 42
        { shipping_address := "s", billing_address := "b",
          payment_method := "unsupported_method" }
        { user_id := 1, role := .customer }
        { users := [],
          products :=
            [{ id := 1, name := "A", description := "d", type := .perfume,
               gender := some .unisex, base_price := 3499, image_url := none,
               is_active := true, created_at := 0, updated_at := 0 },
             { id := 2, name := "B", description := "d", type := .perfume,
               gender := some .unisex, base_price := 4999, image_url := none,
               is_active := true, created_at := 0, updated_at := 0 }],
          variations := [],
          carts := [{ id := 1, user_id := 1, created_at := 0, updated_at := 0 }],
          cartItems :=
            [{ id := 1, cart_id := 1, product_id := 1, variation_id := none,
               quantity := 2, custom_design_text := none,
               custom_design_url := none, unit_price := 3499, created_at := 0 },
             { id := 2, cart_id := 1, product_id := 2, variation_id := none,
               quantity := 1, custom_design_text := none,
               custom_design_url := none, unit_price := 4999, created_at := 0 }],
          orders := [], orderItems := [], addresses := [] } = (.ok o, st')
      ∧ o.total_amount = 11997
      ∧ o.status = OrderStatus.cancelled
      ∧ o.payment_status = "failed"
      ∧ st'.orderItems.length = 2
      ∧ st'.cartItems = []
      ∧ st'.carts.length = 1 := by
  obtain ⟨o, st', heq, htot, huid, hpay, hords, hitems, hfields, hcart,
      hcarts⟩ :=
    C2_createOrder_functional 42
      { shipping_address := "s", billing_address := "b",
        payment_method := "unsupported_method" }
      { user_id := 1, role := .customer }
      { users := [],
        products :=
          [{ id := 1, name := "A", description := "d", type := .perfume,
             gender := some .unisex, base_price := 3499, image_url := none,
             is_active := true, created_at := 0, updated_at := 0 },
           { id := 2, name := "B", description := "d", type := .perfume,
             gender := some .unisex, base_price := 4999, image_url := none,
             is_active := true, created_at := 0, updated_at := 0 }],
        variations := [],
        carts := [{ id := 1, user_id := 1, created_at := 0, updated_at := 0 }],
        cartItems :=
          [{ id := 1, cart_id := 1, product_id := 1, variation_id := none,
             quantity := 2, custom_design_text := none,
             custom_design_url := none, unit_price := 3499, created_at := 0 },
           { id := 2, cart_id := 1, product_id := 2, variation_id := none,
             quantity := 1, custom_design_text := none,
             custom_design_url := none, unit_price := 4999, created_at := 0 }],
        orders := [], orderItems := [], addresses := [] }
      { id := 1, user_id := 1, created_at := 0, updated_at := 0 }
      rfl (by decide) (by intro oi hoi; simp at hoi)
  have hpay' : o.status = OrderStatus.cancelled ∧
      o.payment_status = "failed" := by
    rw [if_neg (by decide)] at hpay
    exact hpay
  refine ⟨o, st', heq, ?_, hpay'.1, hpay'.2, ?_, ?_, ?_⟩
  · rw [htot]; rfl
  · rw [hitems]
    simp [mkOrderItems_length]
    decide
  · rw [hcart]
    rfl
  · rw [hcarts]
    rfl

/-- Claim C3 (code bug demonstration): `createOrder` issues its writes as
separate autocommitting statements with no transaction, so an execution
aborted immediately after the order insert leaves a persisted order with
zero order items and a cart that was never cleared — partial state that the
claim forbids — instead of restoring the pre-call store. -/
theorem C3_createOrder_abort_leaves_partial_state :
    (createOrderAbortedAfterOrderInsert 99
      { shipping_address := "s", billing_address := "b",
        payment_method := "credit_card" }
      { user_id := 1, role := .customer }
      { users := [],
        products :=
          [{ id := 1, name := "A", description := "d", type := .perfume,
             gender := some .unisex, base_price := 3499, image_url := none,
             is_active := true, created_at := 0, updated_at := 0 }],
        variations := [],
        carts := [{ id := 1, user_id := 1, created_at := 0, updated_at := 0 }],
        cartItems :=
          [{ id := 1, cart_id := 1, product_id := 1, variation_id := none,
             quantity := 2, custom_design_text := none,
             custom_design_url := none, unit_price := 3499, created_at := 0 }],
        orders := [], orderItems := [], addresses := [] }).orders.length = 1
    ∧ (createOrderAbortedAfterOrderInsert 99
      { shipping_address := "s", billing_address := "b",
        payment_method := "credit_card" }
      { user_id := 1, role := .customer }
      { users := [],
        products :=
          [{ id := 1, name := "A", description := "d", type := .perfume,
             gender := some .unisex, base_price := 3499, image_url := none,
             is_active := true, created_at := 0, updated_at := 0 }],
        variations := [],
        carts := [{ id := 1, user_id := 1, created_at := 0, updated_at := 0 }],
        cartItems :=
          [{ id := 1, cart_id := 1, product_id := 1, variation_id := none,
             quantity := 2, custom_design_text := none,
             custom_design_url := none, unit_price := 3499, created_at := 0 }],
        orders := [], orderItems := [], addresses := [] }).orderItems = []
    ∧ (createOrderAbortedAfterOrderInsert 99
      { shipping_address := "s", billing_address := "b",
        payment_method := "credit_card" }
      { user_id := 1, role := .customer }
      { users := [],
        products :=
          [{ id := 1, name := "A", description := "d", type := .perfume,
             gender := some .unisex, base_price := 3499, image_url := none,
             is_active := true, created_at := 0, updated_at := 0 }],
        variations := [],
        carts := [{ id := 1, user_id := 1, created_at := 0, updated_at := 0 }],
        cartItems :=
          [{ id := 1, cart_id := 1, product_id := 1, variation_id := none,
             quantity := 2, custom_design_text := none,
             custom_design_url := none, unit_price := 3499, created_at := 0 }],
        orders := [], orderItems := [], addresses := [] }).cartItems.length = 1
    ∧ createOrderAbortedAfterOrderInsert 99
      { shipping_address := "s", billing_address := "b",
        payment_method := "credit_card" }
      { user_id := 1, role := .customer }
      { users := [],
        products :=
          [{ id := 1, name := "A", description := "d", type := .perfume,
             gender := some .unisex, base_price := 3499, image_url := none,
             is_active := true, created_at := 0, updated_at := 0 }],
        variations := [],
        carts := [{ id := 1, user_id := 1, created_at := 0, updated_at := 0 }],
        cartItems :=
          [{ id := 1, cart_id := 1, product_id := 1, variation_id := none,
             quantity := 2, custom_design_text := none,
             custom_design_url := none, unit_price := 3499, created_at := 0 }],
        orders := [], orderItems := [], addresses := [] } ≠
      { users := [],
        products :=
          [{ id := 1, name := "A", description := "d", type := .perfume,
             gender := some .unisex, base_price := 3499, image_url := none,
             is_active := true, created_at := 0, updated_at := 0 }],
        variations := [],
        carts := [{ id := 1, user_id := 1, created_at := 0, updated_at := 0 }],
        cartItems :=
          [{ id := 1, cart_id := 1, product_id := 1, variation_id := none,
             quantity := 2, custom_design_text := none,
             custom_design_url := none, unit_price := 3499, created_at := 0 }],
        orders := [], orderItems := [], addresses := [] } := by
  refine ⟨rfl, rfl, rfl, ?_⟩
  intro h
  have := congrArg (fun s => s.orders.length) h
  simp [createOrderAbortedAfterOrderInsert, findCart, cartLines] at this

/-- `createAddressInputSchema`. -/
structure CreateAddressInput where
  type : AddrType
  first_name : String
  last_name : String
  street_address : String
  city : String
  state : String
  postal_code : String
  country : String
  phone : Option String
  is_default : Bool
deriving DecidableEq, Repr

/-- `updateAddressInputSchema`: all fields but `id` optional, `phone` also
nullable. -/
structure UpdateAddressInput where
  id : Nat
  type : Option AddrType
  first_name : Option String
  last_name : Option String
  street_address : Option String
  city : Option String
  state : Option String
  postal_code : Option String
  country : Option String
  phone : Option (Option String)
  is_default : Option Bool
deriving DecidableEq, Repr

/-- The unset statement shared by `createAddress` and `updateAddress`:
`set is_default=false where user_id = uid and type = t`. -/
def setNotDefault (uid : Nat) (t : AddrType) (l : List UserAddress) :
    List UserAddress :=
  l.map (fun a =>
    if a.user_id == uid && a.type == t then { a with is_default := false }
    else a)

/-- The row `createAddress` inserts (`phone: input.phone || null`). -/
def newAddress (now : Nat) (input : CreateAddressInput) (ctx : AuthContext)
    (st : Store) : UserAddress :=
  { id := freshId (st.addresses.map (·.id))
    user_id := ctx.user_id
    type := input.type
    first_name := input.first_name
    last_name := input.last_name
    street_address := input.street_address
    city := input.city
    state := input.state
    postal_code := input.postal_code
    country := input.country
    phone := designNorm input.phone
    is_default := input.is_default
    created_at := now }

/-- The address table `createAddress` leaves behind on its success path:
same-type defaults of the user unset when the new address is default, then
the new row appended. -/
def createAddrList (now : Nat) (input : CreateAddressInput)
    (ctx : AuthContext) (st : Store) : List UserAddress :=
  (if input.is_default then
     setNotDefault ctx.user_id input.type st.addresses
   else st.addresses) ++ [newAddress now input ctx st]

/-- `createAddress` (`src/server/src/handlers/addresses/create_address.ts`
lines 29-93): verify the user exists, unset same-type defaults when the new
address is default, insert it, and return the last row matching the
user/type/name/street select-back. -/
def createAddress (now : Nat) (input : CreateAddressInput)
    (ctx : AuthContext) (st : Store) : Except String UserAddress × Store :=
  if st.users.any (fun u => u.id == ctx.user_id) then
    let addrs := createAddrList now input ctx st
    match (addrs.filter (fun a => a.user_id == ctx.user_id &&
        a.type == input.type && a.first_name == input.first_name &&
        a.last_name == input.last_name &&
        a.street_address == input.street_address)).getLast? with
    | some a => (.ok a, { st with addresses := addrs })
    | none => (.error "Address creation failed", { st with addresses := addrs })
  else (.error "User not found", st)

/-- The partial update of `updateAddress`: each column is set to the input
field when that field is provided (`!== undefined`) and kept otherwise;
`id`, `user_id` and `created_at` are never part of `updateData`. -/
def addrPatch (input : UpdateAddressInput) (a : UserAddress) : UserAddress :=
  { id := a.id
    user_id := a.user_id
    type := input.type.getD a.type
    first_name := input.first_name.getD a.first_name
    last_name := input.last_name.getD a.last_name
    street_address := input.street_address.getD a.street_address
    city := input.city.getD a.city
    state := input.state.getD a.state
    postal_code := input.postal_code.getD a.postal_code
    country := input.country.getD a.country
    phone := input.phone.getD a.phone
    is_default := input.is_default.getD a.is_default
    created_at := a.created_at }

/-- Whether `updateAddress`'s `updateData` object has at least one field. -/
def hasAddrPatch (input : UpdateAddressInput) : Bool :=
  input.type.isSome || input.first_name.isSome || input.last_name.isSome ||
  input.street_address.isSome || input.city.isSome || input.state.isSome ||
  input.postal_code.isSome || input.country.isSome || input.phone.isSome ||
  input.is_default.isSome

/-- The two conditional unset statements of `updateAddress`: when
`is_default === true`, unset the defaults of the explicit `input.type` when
given, else of the address's existing type; otherwise touch nothing. -/
def afterUnsetList (input : UpdateAddressInput) (ctx : AuthContext)
    (existing : UserAddress) (l : List UserAddress) : List UserAddress :=
  match input.is_default, input.type with
  | some true, some t => setNotDefault ctx.user_id t l
  | some true, none => setNotDefault ctx.user_id existing.type l
  | _, _ => l

/-- The address table after `updateAddress`'s update statement: unsets
applied, then the partial patch applied to the rows matching id and owner. -/
def updatedAddrList (input : UpdateAddressInput) (ctx : AuthContext)
    (existing : UserAddress) (l : List UserAddress) : List UserAddress :=
  (afterUnsetList input ctx existing l).map (fun a =>
    if a.id == input.id && a.user_id == ctx.user_id then addrPatch input a
    else a)

/-- `updateAddress` (`src/server/src/handlers/addresses/update_address.ts`):
find the address by id and owner; run the conditional unsets; with no
updatable fields return the unchanged row; otherwise apply the partial
update to the owned row and return the updated row. -/
def updateAddress (input : UpdateAddressInput) (ctx : AuthContext)
    (st : Store) : Except String UserAddress × Store :=
  match (st.addresses.filter (fun a => a.id == input.id &&
      a.user_id == ctx.user_id)).head? with
  | none => (.error "Address not found or access denied", st)
  | some existing =>
      if hasAddrPatch input then
        let updated := updatedAddrList input ctx existing st.addresses
        match (updated.filter (fun a => a.id == input.id &&
            a.user_id == ctx.user_id)).head? with
        | some row => (.ok row, { st with addresses := updated })
        | none => (.error "Failed to update address",
                   { st with addresses := updated })
      else (.ok existing,
            { st with addresses :=
                afterUnsetList input ctx existing st.addresses })

/-- An operation of the address book, as quantified over by claim C4. -/
inductive AddrOp where
  | create (now : Nat) (input : CreateAddressInput)
  | update (input : UpdateAddressInput)
deriving DecidableEq, Repr

/-- Run one address operation for the user; a throwing handler leaves the
store as it was (all its failure paths precede its writes). -/
def applyAddrOp (ctx : AuthContext) (st : Store) : AddrOp → Store
  | .create now input => (createAddress now input ctx st).2
  | .update input => (updateAddress input ctx st).2

/-- Run a sequence of address operations for the user. -/
def applyAddrOps (ctx : AuthContext) (st : Store) (ops : List AddrOp) :
    Store :=
  ops.foldl (applyAddrOp ctx) st

/-- Membership of an address in the default-flagged (user, type) group. -/
def isDefaultOf (uid : Nat) (t : AddrType) (a : UserAddress) : Bool :=
  (a.user_id == uid && a.type == t) && a.is_default

/-- Number of default-flagged addresses of one (user, type) group. -/
def defaultCount (l : List UserAddress) (uid : Nat) (t : AddrType) : Nat :=
  l.countP (isDefaultOf uid t)

/-- The side condition of the amended claim C4: an `updateAddress` input
that changes the address type must also carry `is_default` (any value);
`createAddress` inputs are unrestricted. The C4 counterexample is exactly
an update violating this. -/
def goodAddrOp : AddrOp → Bool
  | .create _ _ => true
  | .update input => input.type.isNone || input.is_default.isSome

/-- The invariant of claim C4: at most one `is_default = true` address per
(user_id, type). -/
def atMostOneDefault (l : List UserAddress) : Prop :=
  ∀ uid t, defaultCount l uid t ≤ 1

theorem head?_filter_info {α : Type} (l : List α) (p : α → Bool) (a : α)
    (h : (l.filter p).head? = some a) : a ∈ l ∧ p a = true := by
  have hm : a ∈ l.filter p :=
    List.mem_of_mem_head? (by rw [h]; exact Option.mem_some_self _)
  exact ⟨List.mem_of_mem_filter hm, List.of_mem_filter hm⟩

theorem addrPatch_id (input : UpdateAddressInput) (a : UserAddress) :
    (addrPatch input a).id = a.id := rfl

theorem addrPatch_user (input : UpdateAddressInput) (a : UserAddress) :
    (addrPatch input a).user_id = a.user_id := rfl

theorem setNotDefault_ids (uid : Nat) (t : AddrType) (l : List UserAddress) :
    (setNotDefault uid t l).map (·.id) = l.map (·.id) := by
  unfold setNotDefault
  rw [List.map_map]
  apply List.map_congr_left
  intro a _
  by_cases hm : (a.user_id == uid && a.type == t) = true
  · simp only [Function.comp_apply, if_pos hm]
  · simp only [Function.comp_apply, if_neg hm]

theorem afterUnsetList_ids (input : UpdateAddressInput) (ctx : AuthContext)
    (existing : UserAddress) (l : List UserAddress) :
    (afterUnsetList input ctx existing l).map (·.id) = l.map (·.id) := by
  unfold afterUnsetList
  cases hdf : input.is_default with
  | none => rfl
  | some b =>
      cases b with
      | false => cases input.type <;> rfl
      | true =>
          cases input.type with
          | none => exact setNotDefault_ids _ _ _
          | some t => exact setNotDefault_ids _ _ _

theorem updatedAddrList_ids (input : UpdateAddressInput) (ctx : AuthContext)
    (existing : UserAddress) (l : List UserAddress) :
    (updatedAddrList input ctx existing l).map (·.id) = l.map (·.id) := by
  unfold updatedAddrList
  rw [List.map_map]
  have h1 : (afterUnsetList input ctx existing l).map
      ((fun a => a.id) ∘ (fun a =>
        if a.id == input.id && a.user_id == ctx.user_id then addrPatch input a
        else a)) =
      (afterUnsetList input ctx existing l).map (fun a => a.id) := by
    apply List.map_congr_left
    intro a _
    by_cases hc : (a.id == input.id && a.user_id == ctx.user_id) = true
    · simp only [Function.comp_apply, if_pos hc]
      rfl
    · simp only [Function.comp_apply, if_neg hc]
  rw [h1]
  exact afterUnsetList_ids input ctx existing l

theorem defaultCount_setNotDefault_self (uid : Nat) (t : AddrType)
    (l : List UserAddress) :
    defaultCount (setNotDefault uid t l) uid t = 0 := by
  unfold defaultCount setNotDefault
  rw [List.countP_map]
  apply List.countP_eq_zero.mpr
  intro a _
  by_cases hm : (a.user_id == uid && a.type == t) = true
  · simp only [Function.comp_apply, if_pos hm, isDefaultOf]
    simp
  · simp only [Function.comp_apply, if_neg hm, isDefaultOf]
    intro hx
    rw [Bool.and_eq_true] at hx
    exact absurd hx.1 hm

theorem defaultCount_setNotDefault_le (uid : Nat) (t : AddrType)
    (uid' : Nat) (t' : AddrType) (l : List UserAddress) :
    defaultCount (setNotDefault uid t l) uid' t' ≤
      defaultCount l uid' t' := by
  unfold defaultCount setNotDefault
  rw [List.countP_map]
  apply List.countP_mono_left
  intro a _ h
  by_cases hm : (a.user_id == uid && a.type == t) = true
  · exfalso
    simp only [Function.comp_apply, if_pos hm, isDefaultOf] at h
    simp at h
  · simp only [Function.comp_apply, if_neg hm] at h
    exact h

theorem countP_id_le_one (l : List UserAddress)
    (h : (l.map (·.id)).Nodup) (x : Nat) :
    l.countP (fun a => a.id == x) ≤ 1 := by
  induction l with
  | nil => simp
  | cons a rest ih =>
      rw [List.map_cons, List.nodup_cons] at h
      obtain ⟨hnotin, hrest⟩ := h
      rw [List.countP_cons]
      by_cases hx : (a.id == x) = true
      · have hzero : rest.countP (fun b => b.id == x) = 0 := by
          apply List.countP_eq_zero.mpr
          intro b hb hbx
          apply hnotin
          rw [beq_iff_eq] at hx hbx
          exact List.mem_map.mpr ⟨b, hb, by rw [hbx, hx]⟩
        rw [hzero]
        simp [hx]
      · simp only [hx, if_false, Bool.false_eq_true, Nat.add_zero]
        exact ih hrest

theorem mem_eq_of_nodup_ids (l : List UserAddress)
    (h : (l.map (·.id)).Nodup) {a b : UserAddress}
    (ha : a ∈ l) (hb : b ∈ l) (hid : a.id = b.id) : a = b := by
  induction l with
  | nil => simp at ha
  | cons x rest ih =>
      rw [List.map_cons, List.nodup_cons] at h
      obtain ⟨hnotin, hrest⟩ := h
      rcases List.mem_cons.mp ha with rfl | ha'
      · rcases List.mem_cons.mp hb with rfl | hb'
        · rfl
        · exact absurd (List.mem_map.mpr ⟨b, hb', hid.symm⟩) hnotin
      · rcases List.mem_cons.mp hb with rfl | hb'
        · exact absurd (List.mem_map.mpr ⟨a, ha', hid⟩) hnotin
        · exact ih hrest ha' hb'

theorem defaultCount_patchmap_le_one (input : UpdateAddressInput)
    (ctx : AuthContext) (T : AddrType) (l0 : List UserAddress)
    (hnd0 : (l0.map (·.id)).Nodup)
    (hzero : List.countP (isDefaultOf ctx.user_id T) l0 = 0)
    (hle : ∀ uid' t', ¬(uid' = ctx.user_id ∧ t' = T) →
      List.countP (isDefaultOf uid' t') l0 ≤ 1)
    (htype : ∀ a ∈ l0,
      (a.id == input.id && a.user_id == ctx.user_id) = true →
      (addrPatch input a).type = T) :
    ∀ uid' t',
      defaultCount (l0.map (fun a =>
        if a.id == input.id && a.user_id == ctx.user_id then addrPatch input a
        else a)) uid' t' ≤ 1 := by
  intro uid' t'
  unfold defaultCount
  rw [List.countP_map]
  by_cases hpair : uid' = ctx.user_id ∧ t' = T
  · obtain ⟨h1, h2⟩ := hpair
    subst h1
    subst h2
    apply le_trans (List.countP_mono_left ?_) (countP_id_le_one l0 hnd0 input.id)
    intro a ha h
    by_cases hc : (a.id == input.id && a.user_id == ctx.user_id) = true
    · rw [Bool.and_eq_true] at hc
      exact hc.1
    · simp only [Function.comp_apply, if_neg hc] at h
      exact absurd h (List.countP_eq_zero.mp hzero a ha)
  · apply le_trans (List.countP_mono_left ?_) (hle uid' t' hpair)
    intro a ha h
    by_cases hc : (a.id == input.id && a.user_id == ctx.user_id) = true
    · exfalso
      simp only [Function.comp_apply, if_pos hc] at h
      unfold isDefaultOf at h
      rw [Bool.and_eq_true] at h
      obtain ⟨hut, _⟩ := h
      rw [Bool.and_eq_true] at hut
      obtain ⟨hu, ht⟩ := hut
      apply hpair
      constructor
      · have hu' : a.user_id = uid' := by
          rw [beq_iff_eq] at hu
          rw [← hu]
          exact (addrPatch_user input a).symm
        rw [Bool.and_eq_true] at hc
        have hc2 : a.user_id = ctx.user_id := beq_iff_eq.mp hc.2
        rw [← hu']
        exact hc2
      · exact (beq_iff_eq.mp ht).symm.trans (htype a ha hc)
    · simp only [Function.comp_apply, if_neg hc] at h
      exact h

theorem mem_setNotDefault (uid : Nat) (t : AddrType) (l : List UserAddress)
    (a' : UserAddress) (h : a' ∈ setNotDefault uid t l) :
    a' ∈ l ∨ (a'.type = t ∧ a'.user_id = uid) := by
  obtain ⟨a0, ha0, hf⟩ := List.mem_map.mp h
  by_cases hm : (a0.user_id == uid && a0.type == t) = true
  · right
    rw [if_pos hm] at hf
    rw [Bool.and_eq_true] at hm
    rw [← hf]
    exact ⟨beq_iff_eq.mp hm.2, beq_iff_eq.mp hm.1⟩
  · left
    rw [if_neg hm] at hf
    exact hf ▸ ha0

theorem createAddress_snd_of_user (now : Nat) (input : CreateAddressInput)
    (ctx : AuthContext) (st : Store)
    (huser : (st.users.any (fun u => u.id == ctx.user_id)) = true) :
    (createAddress now input ctx st).2 =
      { st with addresses := createAddrList now input ctx st } := by
  unfold createAddress
  rw [if_pos huser]
  dsimp only
  split <;> rfl

theorem createAddress_snd_of_no_user (now : Nat) (input : CreateAddressInput)
    (ctx : AuthContext) (st : Store)
    (huser : ¬ (st.users.any (fun u => u.id == ctx.user_id)) = true) :
    (createAddress now input ctx st).2 = st := by
  unfold createAddress
  rw [if_neg huser]

theorem createAddress_preserves (now : Nat) (input : CreateAddressInput)
    (ctx : AuthContext) (st : Store)
    (hnd : (st.addresses.map (·.id)).Nodup)
    (hinv : atMostOneDefault st.addresses) :
    (((createAddress now input ctx st).2.addresses.map (·.id)).Nodup) ∧
    atMostOneDefault (createAddress now input ctx st).2.addresses := by
  by_cases huser : (st.users.any (fun u => u.id == ctx.user_id)) = true
  · rw [createAddress_snd_of_user now input ctx st huser]
    constructor
    · show ((createAddrList now input ctx st).map (·.id)).Nodup
      unfold createAddrList
      rw [List.map_append]
      have hbase : ((if input.is_default then
          setNotDefault ctx.user_id input.type st.addresses
        else st.addresses).map (·.id)) = st.addresses.map (·.id) := by
        cases hdf : input.is_default with
        | false => simp
        | true => simp [setNotDefault_ids]
      rw [hbase]
      have hnew : ([newAddress now input ctx st].map (·.id)) =
          [freshId (st.addresses.map (·.id))] := rfl
      rw [hnew]
      apply List.Nodup.append hnd (List.nodup_singleton _)
      rw [List.disjoint_singleton]
      intro hmem
      exact ne_freshId hmem rfl
    · intro uid' t'
      show defaultCount (createAddrList now input ctx st) uid' t' ≤ 1
      unfold createAddrList defaultCount
      rw [List.countP_append]
      cases hdf : input.is_default with
      | true =>
          rw [if_pos rfl]
          by_cases hpair : uid' = ctx.user_id ∧ t' = input.type
          · obtain ⟨h1, h2⟩ := hpair
            subst h1
            subst h2
            have h0 := defaultCount_setNotDefault_self ctx.user_id input.type
              st.addresses
            unfold defaultCount at h0
            rw [h0]
            have h1 : List.countP (isDefaultOf ctx.user_id input.type)
                [newAddress now input ctx st] ≤ 1 := by
              rw [List.countP_cons]
              split <;> simp
            omega
          · have h1 : List.countP (isDefaultOf uid' t')
                (setNotDefault ctx.user_id input.type st.addresses) ≤ 1 := by
              have := defaultCount_setNotDefault_le ctx.user_id input.type
                uid' t' st.addresses
              unfold defaultCount at this
              exact le_trans this (hinv uid' t')
            have h2 : List.countP (isDefaultOf uid' t')
                [newAddress now input ctx st] = 0 := by
              apply List.countP_eq_zero.mpr
              intro b hb
              rw [List.mem_singleton] at hb
              subst hb
              intro hx
              unfold isDefaultOf at hx
              rw [Bool.and_eq_true] at hx
              obtain ⟨hut, _⟩ := hx
              rw [Bool.and_eq_true] at hut
              obtain ⟨hu, ht⟩ := hut
              exact hpair ⟨(beq_iff_eq.mp hu).symm, (beq_iff_eq.mp ht).symm⟩
            omega
      | false =>
          rw [if_neg (by simp)]
          have h2 : List.countP (isDefaultOf uid' t')
              [newAddress now input ctx st] = 0 := by
            apply List.countP_eq_zero.mpr
            intro b hb
            rw [List.mem_singleton] at hb
            subst hb
            intro hx
            unfold isDefaultOf at hx
            rw [Bool.and_eq_true] at hx
            have hflag : (newAddress now input ctx st).is_default = true := hx.2
            rw [show (newAddress now input ctx st).is_default =
              input.is_default from rfl, hdf] at hflag
            simp at hflag
          have h1 := hinv uid' t'
          unfold defaultCount at h1
          omega
  · rw [createAddress_snd_of_no_user now input ctx st huser]
    exact ⟨hnd, hinv⟩

theorem updateAddress_snd_of_patch (input : UpdateAddressInput)
    (ctx : AuthContext) (st : Store) (existing : UserAddress)
    (hh : (st.addresses.filter (fun a => a.id == input.id &&
      a.user_id == ctx.user_id)).head? = some existing)
    (hp : hasAddrPatch input = true) :
    (updateAddress input ctx st).2 =
      { st with addresses := updatedAddrList input ctx existing st.addresses } := by
  unfold updateAddress
  rw [hh]
  dsimp only
  rw [if_pos hp]
  split <;> rfl

theorem updateAddress_snd_of_no_patch (input : UpdateAddressInput)
    (ctx : AuthContext) (st : Store) (existing : UserAddress)
    (hh : (st.addresses.filter (fun a => a.id == input.id &&
      a.user_id == ctx.user_id)).head? = some existing)
    (hp : ¬ hasAddrPatch input = true) :
    (updateAddress input ctx st).2 =
      { st with addresses := afterUnsetList input ctx existing st.addresses } := by
  unfold updateAddress
  rw [hh]
  dsimp only
  rw [if_neg hp]

theorem updateAddress_snd_of_miss (input : UpdateAddressInput)
    (ctx : AuthContext) (st : Store)
    (hh : (st.addresses.filter (fun a => a.id == input.id &&
      a.user_id == ctx.user_id)).head? = none) :
    (updateAddress input ctx st).2 = st := by
  unfold updateAddress
  rw [hh]

theorem no_patch_is_default_none (input : UpdateAddressInput)
    (hp : ¬ hasAddrPatch input = true) : input.is_default = none := by
  cases hdf : input.is_default with
  | none => rfl
  | some b =>
      exfalso
      apply hp
      unfold hasAddrPatch
      rw [hdf]
      simp

theorem updateAddress_preserves (input : UpdateAddressInput)
    (ctx : AuthContext) (st : Store)
    (hgood : (input.type.isNone || input.is_default.isSome) = true)
    (hnd : (st.addresses.map (·.id)).Nodup)
    (hinv : atMostOneDefault st.addresses) :
    (((updateAddress input ctx st).2.addresses.map (·.id)).Nodup) ∧
    atMostOneDefault (updateAddress input ctx st).2.addresses := by
  cases hh : (st.addresses.filter (fun a => a.id == input.id &&
      a.user_id == ctx.user_id)).head? with
  | none =>
      rw [updateAddress_snd_of_miss input ctx st hh]
      exact ⟨hnd, hinv⟩
  | some existing =>
      obtain ⟨hexmem, hexpred⟩ := head?_filter_info _ _ _ hh
      by_cases hp : hasAddrPatch input = true
      · rw [updateAddress_snd_of_patch input ctx st existing hh hp]
        constructor
        · show ((updatedAddrList input ctx existing st.addresses).map
            (·.id)).Nodup
          rw [updatedAddrList_ids]
          exact hnd
        · intro uid' t'
          show defaultCount (updatedAddrList input ctx existing st.addresses)
            uid' t' ≤ 1
          unfold updatedAddrList
          cases hdf : input.is_default with
          | none =>
              have htN : input.type = none := by
                rw [Bool.or_eq_true] at hgood
                rcases hgood with h | h
                · exact Option.isNone_iff_eq_none.mp h
                · rw [hdf] at h
                  simp at h
              have hafter : afterUnsetList input ctx existing st.addresses =
                  st.addresses := by
                unfold afterUnsetList
                rw [hdf]
              rw [hafter]
              unfold defaultCount
              rw [List.countP_map]
              have heq : ∀ a ∈ st.addresses,
                  ((isDefaultOf uid' t') ∘ (fun a =>
                    if a.id == input.id && a.user_id == ctx.user_id then
                      addrPatch input a else a)) a = true ↔
                  isDefaultOf uid' t' a = true := by
                intro a _
                by_cases hc : (a.id == input.id &&
                    a.user_id == ctx.user_id) = true
                · simp only [Function.comp_apply, if_pos hc]
                  unfold addrPatch isDefaultOf
                  rw [htN, hdf]
                  simp
                · simp only [Function.comp_apply, if_neg hc]
              rw [List.countP_congr heq]
              exact hinv uid' t'
          | some b =>
              cases b with
              | false =>
                  have hafter : afterUnsetList input ctx existing
                      st.addresses = st.addresses := by
                    unfold afterUnsetList
                    rw [hdf]
                  rw [hafter]
                  unfold defaultCount
                  rw [List.countP_map]
                  apply le_trans (List.countP_mono_left ?_) (hinv uid' t')
                  intro a ha h
                  by_cases hc : (a.id == input.id &&
                      a.user_id == ctx.user_id) = true
                  · exfalso
                    simp only [Function.comp_apply, if_pos hc] at h
                    unfold isDefaultOf addrPatch at h
                    rw [hdf] at h
                    simp at h
                  · simp only [Function.comp_apply, if_neg hc] at h
                    exact h
              | true =>
                  cases ht : input.type with
                  | some t =>
                      have hafter : afterUnsetList input ctx existing
                          st.addresses =
                          setNotDefault ctx.user_id t st.addresses := by
                        unfold afterUnsetList
                        rw [hdf, ht]
                      rw [hafter]
                      apply defaultCount_patchmap_le_one input ctx t
                        (setNotDefault ctx.user_id t st.addresses)
                        (by rw [setNotDefault_ids]; exact hnd)
                        (by
                          have h0 := defaultCount_setNotDefault_self
                            ctx.user_id t st.addresses
                          unfold defaultCount at h0
                          exact h0)
                        (by
                          intro uid'' t'' hne
                          have h1 := defaultCount_setNotDefault_le ctx.user_id
                            t uid'' t'' st.addresses
                          unfold defaultCount at h1
                          exact le_trans h1 (hinv uid'' t''))
                        (by
                          intro a _ _
                          unfold addrPatch
                          rw [ht]
                          rfl)
                  | none =>
                      have hafter : afterUnsetList input ctx existing
                          st.addresses =
                          setNotDefault ctx.user_id existing.type
                            st.addresses := by
                        unfold afterUnsetList
                        rw [hdf, ht]
                      rw [hafter]
                      apply defaultCount_patchmap_le_one input ctx
                        existing.type
                        (setNotDefault ctx.user_id existing.type st.addresses)
                        (by rw [setNotDefault_ids]; exact hnd)
                        (by
                          have h0 := defaultCount_setNotDefault_self
                            ctx.user_id existing.type st.addresses
                          unfold defaultCount at h0
                          exact h0)
                        (by
                          intro uid'' t'' hne
                          have h1 := defaultCount_setNotDefault_le ctx.user_id
                            existing.type uid'' t'' st.addresses
                          unfold defaultCount at h1
                          exact le_trans h1 (hinv uid'' t''))
                        (by
                          intro a ha hc2
                          have hty : (addrPatch input a).type = a.type := by
                            unfold addrPatch
                            rw [ht]
                            rfl
                          rw [hty]
                          obtain ⟨a0, ha0, hfa0⟩ := List.mem_map.mp ha
                          have hid0 : a0.id = a.id := by
                            rw [← hfa0]
                            by_cases hm : (a0.user_id == ctx.user_id &&
                                a0.type == existing.type) = true
                            · rw [if_pos hm]
                            · rw [if_neg hm]
                          have hty0 : a0.type = a.type := by
                            rw [← hfa0]
                            by_cases hm : (a0.user_id == ctx.user_id &&
                                a0.type == existing.type) = true
                            · rw [if_pos hm]
                            · rw [if_neg hm]
                          rw [Bool.and_eq_true] at hc2
                          have hidin : a.id = input.id := beq_iff_eq.mp hc2.1
                          rw [Bool.and_eq_true] at hexpred
                          have hexid : existing.id = input.id :=
                            beq_iff_eq.mp hexpred.1
                          have ha0ex : a0 = existing :=
                            mem_eq_of_nodup_ids st.addresses hnd ha0 hexmem
                              (by rw [hid0, hidin, hexid])
                          rw [← hty0, ha0ex])
      · have hdnone := no_patch_is_default_none input hp
        rw [updateAddress_snd_of_no_patch input ctx st existing hh hp]
        have hafter : afterUnsetList input ctx existing st.addresses =
            st.addresses := by
          unfold afterUnsetList
          rw [hdnone]
        rw [hafter]
        have heta : ({ st with addresses := st.addresses } : Store) = st := rfl
        rw [heta]
        exact ⟨hnd, hinv⟩

theorem applyAddrOps_preserves (ctx : AuthContext) (ops : List AddrOp) :
    ∀ st : Store,
      (st.addresses.map (·.id)).Nodup →
      atMostOneDefault st.addresses →
      (∀ op ∈ ops, goodAddrOp op = true) →
      ((applyAddrOps ctx st ops).addresses.map (·.id)).Nodup ∧
      atMostOneDefault (applyAddrOps ctx st ops).addresses := by
  induction ops with
  | nil => intro st hnd hinv _; exact ⟨hnd, hinv⟩
  | cons op rest ih =>
      intro st hnd hinv hgood
      have hstep : (((applyAddrOp ctx st op).addresses.map (·.id)).Nodup) ∧
          atMostOneDefault (applyAddrOp ctx st op).addresses := by
        cases op with
        | create now input => exact createAddress_preserves now input ctx st hnd hinv
        | update input =>
            have hg : goodAddrOp (AddrOp.update input) = true :=
              hgood (AddrOp.update input) (by simp)
            exact updateAddress_preserves input ctx st hg hnd hinv
      exact ih (applyAddrOp ctx st op) hstep.1 hstep.2
        (fun o ho => hgood o (List.mem_cons_of_mem _ ho))

theorem createAddress_other_type_preserved (now : Nat)
    (input : CreateAddressInput) (ctx : AuthContext) (st : Store) :
    ∀ a' ∈ (createAddress now input ctx st).2.addresses,
      a'.type ≠ input.type → a' ∈ st.addresses := by
  intro a' ha' hne
  by_cases huser : (st.users.any (fun u => u.id == ctx.user_id)) = true
  · rw [createAddress_snd_of_user now input ctx st huser] at ha'
    have ha2 : a' ∈ createAddrList now input ctx st := ha'
    unfold createAddrList at ha2
    rcases List.mem_append.mp ha2 with h | h
    · cases hdf : input.is_default with
      | false =>
          rw [hdf] at h
          simp only [Bool.false_eq_true, if_false] at h
          exact h
      | true =>
          rw [hdf] at h
          simp only [if_true] at h
          rcases mem_setNotDefault _ _ _ _ h with h' | h'
          · exact h'
          · exact absurd h'.1 hne
    · rw [List.mem_singleton] at h
      exfalso
      apply hne
      rw [h]
      rfl
  · rw [createAddress_snd_of_no_user now input ctx st huser] at ha'
    exact ha'

theorem updateAddress_other_type_preserved_explicit
    (input : UpdateAddressInput) (ctx : AuthContext) (st : Store)
    (t : AddrType) (ht : input.type = some t) :
    ∀ a' ∈ (updateAddress input ctx st).2.addresses,
      a'.type ≠ t → a' ∈ st.addresses := by
  intro a' ha' hne
  cases hh : (st.addresses.filter (fun a => a.id == input.id &&
      a.user_id == ctx.user_id)).head? with
  | none =>
      rw [updateAddress_snd_of_miss input ctx st hh] at ha'
      exact ha'
  | some existing =>
      by_cases hp : hasAddrPatch input = true
      · rw [updateAddress_snd_of_patch input ctx st existing hh hp] at ha'
        have ha2 : a' ∈ updatedAddrList input ctx existing st.addresses := ha'
        unfold updatedAddrList at ha2
        obtain ⟨a1, ha1, hga1⟩ := List.mem_map.mp ha2
        by_cases hc : (a1.id == input.id && a1.user_id == ctx.user_id) = true
        · exfalso
          apply hne
          rw [← hga1, if_pos hc]
          unfold addrPatch
          rw [ht]
          rfl
        · rw [if_neg hc] at hga1
          subst hga1
          have hafter : a1 ∈ afterUnsetList input ctx existing st.addresses :=
            ha1
          unfold afterUnsetList at hafter
          cases hdf : input.is_default with
          | none =>
              rw [hdf] at hafter
              exact hafter
          | some b =>
              cases b with
              | false =>
                  rw [hdf] at hafter
                  exact hafter
              | true =>
                  rw [hdf, ht] at hafter
                  rcases mem_setNotDefault _ _ _ _ hafter with h' | h'
                  · exact h'
                  · exact absurd h'.1 hne
      · exfalso
        apply hp
        unfold hasAddrPatch
        rw [ht]
        simp

theorem updateAddress_other_type_preserved_implicit
    (input : UpdateAddressInput) (ctx : AuthContext) (st : Store)
    (existing : UserAddress)
    (hnd : (st.addresses.map (·.id)).Nodup)
    (htN : input.type = none)
    (hh : (st.addresses.filter (fun a => a.id == input.id &&
      a.user_id == ctx.user_id)).head? = some existing) :
    ∀ a' ∈ (updateAddress input ctx st).2.addresses,
      a'.type ≠ existing.type → a' ∈ st.addresses := by
  intro a' ha' hne
  obtain ⟨hexmem, hexpred⟩ := head?_filter_info _ _ _ hh
  rw [Bool.and_eq_true] at hexpred
  have hexid : existing.id = input.id := beq_iff_eq.mp hexpred.1
  by_cases hp : hasAddrPatch input = true
  · rw [updateAddress_snd_of_patch input ctx st existing hh hp] at ha'
    have ha2 : a' ∈ updatedAddrList input ctx existing st.addresses := ha'
    unfold updatedAddrList at ha2
    obtain ⟨a1, ha1, hga1⟩ := List.mem_map.mp ha2
    have ha1mem : a1 ∈ st.addresses ∨ a1.type = existing.type := by
      have hafter : a1 ∈ afterUnsetList input ctx existing st.addresses := ha1
      unfold afterUnsetList at hafter
      cases hdf : input.is_default with
      | none => rw [hdf] at hafter; exact Or.inl hafter
      | some b =>
          cases b with
          | false => rw [hdf] at hafter; exact Or.inl hafter
          | true =>
              rw [hdf, htN] at hafter
              rcases mem_setNotDefault _ _ _ _ hafter with h' | h'
              · exact Or.inl h'
              · exact Or.inr h'.1
    by_cases hc : (a1.id == input.id && a1.user_id == ctx.user_id) = true
    · exfalso
      apply hne
      rw [← hga1, if_pos hc]
      have hty : (addrPatch input a1).type = a1.type := by
        unfold addrPatch
        rw [htN]
        rfl
      rw [hty]
      rw [Bool.and_eq_true] at hc
      have ha1id : a1.id = input.id := beq_iff_eq.mp hc.1
      rcases ha1mem with hm | hm
      · have := mem_eq_of_nodup_ids st.addresses hnd hm hexmem
          (by rw [ha1id, hexid])
        rw [this]
      · exact hm
    · rw [if_neg hc] at hga1
      subst hga1
      rcases ha1mem with hm | hm
      · exact hm
      · exact absurd hm hne
  · rw [updateAddress_snd_of_no_patch input ctx st existing hh hp] at ha'
    have hdnone := no_patch_is_default_none input hp
    have hafter : afterUnsetList input ctx existing st.addresses =
        st.addresses := by
      unfold afterUnsetList
      rw [hdnone]
    rw [hafter] at ha'
    exact ha'

/-- Claim C4 counterexample: starting from a store with one user and no
addresses, the sequence (create default billing address; create default
shipping address; update the shipping address to type billing without
touching `is_default`) leaves the user with TWO default billing addresses:
`updateAddress` only unsets other defaults when `is_default === true` is in
the input, so a bare type change carries a still-set default flag into the
other type and the claimed invariant fails. -/
theorem C4_type_change_breaks_default_invariant :
    ¬ atMostOneDefault (applyAddrOps { user_id := 1, role := .customer }
      { users :=
          [{ id := 1, email := "u@x.com", password_hash := "h",
             first_name := "U", last_name := "X", role := .customer,
             created_at := 0, updated_at := 0 }],
        products := [], variations := [], carts := [], cartItems := [],
        orders := [], orderItems := [], addresses := [] }
      [.create 0
        { type := .billing, first_name := "U", last_name := "X",
          street_address := "s1", city := "c", state := "st",
          postal_code := "p", country := "x", phone := none,
          is_default := true },
       .create 1
        { type := .shipping, first_name := "U", last_name := "X",
          street_address := "s2", city := "c", state := "st",
          postal_code := "p", country := "x", phone := none,
          is_default := true },
       .update
        { id := 2, type := some .billing, first_name := none,
          last_name := none, street_address := none, city := none,
          state := none, postal_code := none, country := none,
          phone := none, is_default := none }]).addresses := by
  intro h
  exact absurd (h 1 AddrType.billing) (by decide)

/-- Claim C4 (amended): for every user, after any sequence of
`createAddress` and `updateAddress` operations in which every update that
supplies `type` also supplies `is_default`, at most one address is
`is_default = true` per (user_id, type) — starting from any store whose
addresses satisfy the invariant and have distinct primary keys (the
table's serial key). The two types stay independent: an operation that
sets a default of type T leaves every address whose resulting type is not
T exactly as it was (the three conjuncts cover `createAddress`,
`updateAddress` with explicit `input.type`, and `updateAddress` falling
back to the target's existing type). Without the side condition the
invariant fails: an update that changes the type of a still-default
address without touching `is_default` produces two defaults of the new
type (see the counterexample). -/
theorem C4_default_invariant_amended :
    (∀ (ctx : AuthContext) (st : Store) (ops : List AddrOp),
       (st.addresses.map (·.id)).Nodup →
       atMostOneDefault st.addresses →
       (∀ op ∈ ops, goodAddrOp op = true) →
       atMostOneDefault (applyAddrOps ctx st ops).addresses)
    ∧ (∀ (ctx : AuthContext) (st : Store) (now : Nat)
         (input : CreateAddressInput),
       ∀ a' ∈ (createAddress now input ctx st).2.addresses,
         a'.type ≠ input.type → a' ∈ st.addresses)
    ∧ (∀ (ctx : AuthContext) (st : Store) (input : UpdateAddressInput)
         (t : AddrType), input.type = some t →
       ∀ a' ∈ (updateAddress input ctx st).2.addresses,
         a'.type ≠ t → a' ∈ st.addresses)
    ∧ (∀ (ctx : AuthContext) (st : Store) (input : UpdateAddressInput)
         (existing : UserAddress),
       (st.addresses.map (·.id)).Nodup →
       input.type = none →
       (st.addresses.filter (fun a => a.id == input.id &&
          a.user_id == ctx.user_id)).head? = some existing →
       ∀ a' ∈ (updateAddress input ctx st).2.addresses,
         a'.type ≠ existing.type → a' ∈ st.addresses) := by
  refine ⟨?_, ?_, ?_, ?_⟩
  · intro ctx st ops hnd hinv hgood
    exact (applyAddrOps_preserves ctx ops st hnd hinv hgood).2
  · intro ctx st now input
    exact createAddress_other_type_preserved now input ctx st
  · intro ctx st input t ht
    exact updateAddress_other_type_preserved_explicit input ctx st t ht
  · intro ctx st input existing hnd htN hh
    exact updateAddress_other_type_preserved_implicit input ctx st existing
      hnd htN hh

/-- Claim C4 witness: the counterexample's operation sequence with the
type-changing update now also supplying `is_default := true` satisfies the
side condition, and the resulting store has exactly one default billing
address. -/
theorem C4_default_invariant_amended_witness :
    atMostOneDefault (applyAddrOps { user_id := 1, role := .customer }
      { users :=
          [{ id := 1, email := "u@x.com", password_hash := "h",
             first_name := "U", last_name := "X", role := .customer,
             created_at := 0, updated_at := 0 }],
        products := [], variations := [], carts := [], cartItems := [],
        orders := [], orderItems := [], addresses := [] }
      [.create 0
        { type := .billing, first_name := "U", last_name := "X",
          street_address := "s1", city := "c", state := "st",
          postal_code := "p", country := "x", phone := none,
          is_default := true },
       .create 1
        { type := .shipping, first_name := "U", last_name := "X",
          street_address := "s2", city := "c", state := "st",
          postal_code := "p", country := "x", phone := none,
          is_default := true },
       .update
        { id := 2, type := some .billing, first_name := none,
          last_name := none, street_address := none, city := none,
          state := none, postal_code := none, country := none,
          phone := none, is_default := some true }]).addresses
    ∧ defaultCount (applyAddrOps { user_id := 1, role := .customer }
      { users :=
          [{ id := 1, email := "u@x.com", password_hash := "h",
             first_name := "U", last_name := "X", role := .customer,
             created_at := 0, updated_at := 0 }],
        products := [], variations := [], carts := [], cartItems := [],
        orders := [], orderItems := [], addresses := [] }
      [.create 0
        { type := .billing, first_name := "U", last_name := "X",
          street_address := "s1", city := "c", state := "st",
          postal_code := "p", country := "x", phone := none,
          is_default := true },
       .create 1
        { type := .shipping, first_name := "U", last_name := "X",
          street_address := "s2", city := "c", state := "st",
          postal_code := "p", country := "x", phone := none,
          is_default := true },
       .update
        { id := 2, type := some .billing, first_name := none,
          last_name := none, street_address := none, city := none,
          state := none, postal_code := none, country := none,
          phone := none, is_default := some true }]).addresses
      1 AddrType.billing = 1 := by
  constructor
  · apply C4_default_invariant_amended.1
    · simp
    · intro uid t
      simp [defaultCount]
    · intro op hop
      fin_cases hop <;> rfl
  · decide

/-- `productFiltersSchema`: page defaults to 1, limit to 20 (both validated
positive, limit at most 100). -/
structure ProductFilters where
  type : Option ProductType
  gender : Option Gender
  search : Option String
  min_price : Option Int
  max_price : Option Int
  page : Nat
  limit : Nat
deriving DecidableEq, Repr

/-- Case-insensitive substring match, the semantics of
`ilike(productsTable.name, %search%)`. -/
def matchesSearch (name s : String) : Bool :=
  decide (s.toLower.toList <:+: name.toLower.toList)

/-- The where-conditions of `getProducts`
(`src/server/src/handlers/products/get_products.ts` lines 12-38): type,
gender, search (truthy only — the empty string is skipped, which matches
everything either way), price bounds (`!== undefined`), and always
`is_active = true`. -/
def matchesFilters (f : ProductFilters) (p : Product) : Bool :=
  (match f.type with | some t => p.type == t | none => true) &&
  (match f.gender with | some g => p.gender == some g | none => true) &&
  (match designNorm f.search with
   | some s => matchesSearch p.name s
   | none => true) &&
  (match f.min_price with
   | some m => decide (m ≤ p.base_price)
   | none => true) &&
  (match f.max_price with
   | some m => decide (p.base_price ≤ m)
   | none => true) &&
  p.is_active

/-- The `orderBy(desc(created_at))` relation. -/
def createdDescRel (a b : Product) : Prop :=
  b.created_at ≤ a.created_at

instance : DecidableRel createdDescRel :=
  fun a b => Nat.decLe b.created_at a.created_at

instance : IsTotal Product createdDescRel :=
  ⟨fun a b => le_total b.created_at a.created_at⟩

instance : IsTrans Product createdDescRel :=
  ⟨fun _ _ _ h1 h2 => le_trans h2 h1⟩

/-- `productWithVariationsSchema`: a product joined with its variations. -/
structure ProductWithVariations where
  product : Product
  variations : List Variation
deriving DecidableEq, Repr

/-- `paginatedProductsSchema`. -/
structure PaginatedProducts where
  products : List ProductWithVariations
  total : Nat
  page : Nat
  limit : Nat
  total_pages : Nat
deriving DecidableEq, Repr

/-- The rows matching the filters (the count query re-runs exactly these
conditions without pagination, so `total` is this list's length). -/
def productsMatching (f : ProductFilters) (st : Store) : List Product :=
  st.products.filter (matchesFilters f)

/-- The matching rows in `created_at` descending order. -/
def productsSorted (f : ProductFilters) (st : Store) : List Product :=
  List.insertionSort createdDescRel (productsMatching f st)

/-- The requested page: `offset = (page-1)*limit`, then `limit` rows. -/
def productsPage (f : ProductFilters) (st : Store) : List Product :=
  ((productsSorted f st).drop ((f.page - 1) * f.limit)).take f.limit

/-- `getProducts` (`src/server/src/handlers/products/get_products.ts`):
filter (always restricted to active products), order by creation time
descending, paginate, join each page row with its full variation list, and
report `total`, `page`, `limit` and `total_pages = ceil(total / limit)`. -/
def getProducts (f : ProductFilters) (st : Store) : PaginatedProducts :=
  { products := (productsPage f st).map (fun p =>
      { product := p
        variations := st.variations.filter (fun v => v.product_id == p.id) })
    total := (productsMatching f st).length
    page := f.page
    limit := f.limit
    total_pages := ((productsMatching f st).length + f.limit - 1) / f.limit }

theorem disjoint_of_subset {α : Type} {l₁ l₂ m₁ m₂ : List α}
    (h1 : l₁ ⊆ l₂) (h2 : m₁ ⊆ m₂) (h : List.Disjoint l₂ m₂) :
    List.Disjoint l₁ m₁ :=
  fun _ ha hb => h (h1 ha) (h2 hb)

theorem disjoint_slices {α : Type} (I : List α) (hnd : I.Nodup)
    (o1 o2 L : Nat) (h : o1 + L ≤ o2) :
    List.Disjoint ((I.drop o1).take L) ((I.drop o2).take L) := by
  refine disjoint_of_subset ?_ ?_ (List.disjoint_take_drop hnd h)
  · intro a ha
    have hdt : List.drop o1 (List.take (o1 + L) I) =
        List.take L (List.drop o1 I) := by
      rw [List.drop_take]
      congr 1
      omega
    rw [← hdt] at ha
    exact List.mem_of_mem_drop ha
  · exact (List.take_sublist _ _).subset

theorem matchesFilters_active (f : ProductFilters) (p : Product)
    (h : matchesFilters f p = true) : p.is_active = true := by
  unfold matchesFilters at h
  rw [Bool.and_eq_true] at h
  exact h.2

theorem perm_productsSorted (f : ProductFilters) (st : Store) :
    List.Perm (productsSorted f st) (productsMatching f st) :=
  List.perm_insertionSort createdDescRel (productsMatching f st)

theorem mem_productsPage (f : ProductFilters) (st : Store) (p : Product)
    (h : p ∈ productsPage f st) : p ∈ productsMatching f st := by
  have h1 : p ∈ (productsSorted f st).drop ((f.page - 1) * f.limit) :=
    List.mem_of_mem_take h
  have h2 : p ∈ productsSorted f st := List.mem_of_mem_drop h1
  exact (perm_productsSorted f st).mem_iff.mp h2

theorem sorted_ids_nodup (f : ProductFilters) (st : Store)
    (hnd : (st.products.map (·.id)).Nodup) :
    ((productsSorted f st).map (·.id)).Nodup := by
  have h1 : List.Sublist ((productsMatching f st).map (·.id))
      (st.products.map (·.id)) :=
    (List.filter_sublist _).map _
  have h2 : ((productsMatching f st).map (·.id)).Nodup := h1.nodup hnd
  exact (((perm_productsSorted f st).map (·.id)).nodup_iff).mpr h2

theorem getProducts_ids (f : ProductFilters) (st : Store) :
    (getProducts f st).products.map (·.product.id) =
      (productsPage f st).map (·.id) := by
  unfold getProducts
  rw [List.map_map]
  rfl

theorem pageIds_eq (f : ProductFilters) (st : Store) (k : Nat) :
    (getProducts { f with page := k } st).products.map (·.product.id) =
      (((productsSorted f st).map (·.id)).drop ((k - 1) * f.limit)).take
        f.limit := by
  rw [getProducts_ids]
  show (((productsSorted f st).drop ((k - 1) * f.limit)).take f.limit).map
    (·.id) = _
  rw [List.map_take, List.map_drop]

/-- Claim C6: `getProducts` returns only active products; `total` counts
exactly the active products matching the filters; `total_pages` is
`ceil(total / limit)` and is 0 for an empty result; the page is ordered by
creation time descending; distinct pages at a fixed limit are disjoint as
id sets; and every matching product appears on some page between 1 and
`total_pages`. Hypotheses are the schema bounds (`page ≥ 1`, `limit ≥ 1`)
and the primary-key uniqueness of product ids. -/
theorem C6_getProducts_pagination (f : ProductFilters) (st : Store)
    (hpage : 1 ≤ f.page) (hlimit : 1 ≤ f.limit)
    (hnd : (st.products.map (·.id)).Nodup) :
    (∀ pw ∈ (getProducts f st).products, pw.product.is_active = true)
    ∧ (getProducts f st).total =
        (st.products.filter (matchesFilters f)).length
    ∧ (getProducts f st).total_pages =
        ((getProducts f st).total + f.limit - 1) / f.limit
    ∧ ((getProducts f st).total = 0 → (getProducts f st).total_pages = 0)
    ∧ ((getProducts f st).products.map (·.product)).Pairwise createdDescRel
    ∧ (∀ p q : Nat, 1 ≤ p → 1 ≤ q → p ≠ q →
        List.Disjoint
          ((getProducts { f with page := p } st).products.map (·.product.id))
          ((getProducts { f with page := q } st).products.map (·.product.id)))
    ∧ (∀ prod ∈ st.products, matchesFilters f prod = true →
        ∃ k, 1 ≤ k ∧ k ≤ (getProducts f st).total_pages ∧
          prod.id ∈ (getProducts { f with page := k } st).products.map
            (·.product.id)) := by
  have hL : 0 < f.limit := hlimit
  refine ⟨?_, rfl, rfl, ?_, ?_, ?_, ?_⟩
  · intro pw hpw
    obtain ⟨p0, hp0, hb⟩ := List.mem_map.mp hpw
    subst hb
    have hmem := mem_productsPage f st p0 hp0
    exact matchesFilters_active f p0 (List.of_mem_filter hmem)
  · intro h0
    show ((productsMatching f st).length + f.limit - 1) / f.limit = 0
    have hz : (productsMatching f st).length = 0 := h0
    rw [hz]
    apply Nat.div_eq_of_lt
    omega
  · have hs : (productsSorted f st).Pairwise createdDescRel :=
      List.sorted_insertionSort createdDescRel (productsMatching f st)
    have hsub : List.Sublist (productsPage f st) (productsSorted f st) :=
      List.Sublist.trans (List.take_sublist _ _) (List.drop_sublist _ _)
    have hpp : (productsPage f st).Pairwise createdDescRel :=
      List.Pairwise.sublist hsub hs
    have hmapeq : (getProducts f st).products.map (·.product) =
        productsPage f st := by
      unfold getProducts
      rw [List.map_map]
      exact List.map_id _
    rw [hmapeq]
    exact hpp
  · intro p q hp hq hne
    rw [pageIds_eq, pageIds_eq]
    have hndI := sorted_ids_nodup f st hnd
    have hstep : ∀ a b : Nat, 1 ≤ a → 1 ≤ b → a < b →
        (a - 1) * f.limit + f.limit ≤ (b - 1) * f.limit := by
      intro a b ha hb hab
      have h1 : (a - 1) * f.limit + f.limit = a * f.limit := by
        cases a with
        | zero => omega
        | succ n => rw [Nat.succ_sub_one, Nat.succ_mul]
      rw [h1]
      exact Nat.mul_le_mul_right _ (by omega)
    rcases Nat.lt_or_ge p q with hlt | hge
    · exact disjoint_slices _ hndI _ _ _ (hstep p q hp hq hlt)
    · have hqp : q < p := by omega
      exact List.Disjoint.symm
        (disjoint_slices _ hndI _ _ _ (hstep q p hq hp hqp))
  · intro prod hprod hmatch
    have hmem : prod ∈ productsMatching f st :=
      List.mem_filter.mpr ⟨hprod, hmatch⟩
    have hmem' : prod ∈ productsSorted f st :=
      (perm_productsSorted f st).mem_iff.mpr hmem
    obtain ⟨i, hi, hgi⟩ := List.mem_iff_getElem.mp hmem'
    refine ⟨i / f.limit + 1, Nat.le_add_left 1 _, ?_, ?_⟩
    · show i / f.limit + 1 ≤
        ((productsMatching f st).length + f.limit - 1) / f.limit
      have hlen : (productsSorted f st).length =
          (productsMatching f st).length :=
        (perm_productsSorted f st).length_eq
      have hi' : i < (productsMatching f st).length := hlen ▸ hi
      calc i / f.limit + 1
          ≤ ((productsMatching f st).length - 1) / f.limit + 1 :=
            Nat.add_le_add_right (Nat.div_le_div_right (by omega)) 1
        _ = ((productsMatching f st).length - 1 + f.limit) / f.limit :=
            (Nat.add_div_right _ hL).symm
        _ = ((productsMatching f st).length + f.limit - 1) / f.limit := by
            congr 1
            omega
    · rw [pageIds_eq]
      have hsimp : (i / f.limit + 1 - 1) = i / f.limit :=
        Nat.succ_sub_one _
      rw [hsimp]
      have hidx : i / f.limit * f.limit + i % f.limit = i := by
        have := Nat.div_add_mod i f.limit
        calc i / f.limit * f.limit + i % f.limit
            = f.limit * (i / f.limit) + i % f.limit := by
              rw [Nat.mul_comm]
          _ = i := this
      have hmod : i % f.limit < f.limit := Nat.mod_lt _ hL
      have hIlen : ((productsSorted f st).map (·.id)).length =
          (productsSorted f st).length := List.length_map _ _
      have key : ∀ (n : Nat)
          (hn : n < ((productsSorted f st).map (·.id)).length), n = i →
          ((productsSorted f st).map (·.id)).get ⟨n, hn⟩ = prod.id := by
        intro n hn hni
        subst hni
        rw [List.get_eq_getElem, List.getElem_map, hgi]
      apply List.mem_iff_getElem.mpr
      refine ⟨i % f.limit, ?_, ?_⟩
      · simp only [List.length_take, List.length_drop, List.length_map]
        omega
      · rw [List.getElem_take, List.getElem_drop]
        exact key _ _ (by omega)

/-- Claim C6 witness: with 4 active and 1 inactive seeded products and
`limit = 2`, `getProducts` reports `total = 4` and `total_pages = 2`, every
returned product is active, and pages 1 and 2 are disjoint id sets. -/
theorem C6_getProducts_pagination_witness :
    (getProducts
      { type := none, gender := none, search := none, min_price := none,
        max_price := none, page := 1, limit := 2 }
      { users := [], products :=
          [{ id := 1, name := "P1", description := "d", type := .perfume,
             gender := some .unisex, base_price := 100, image_url := none,
             is_active := true, created_at := 1, updated_at := 1 },
           { id := 2, name := "P2", description := "d", type := .perfume,
             gender := some .unisex, base_price := 200, image_url := none,
             is_active := true, created_at := 2, updated_at := 2 },
           { id := 3, name := "P3", description := "d", type := .shirt,
             gender := none, base_price := 300, image_url := none,
             is_active := true, created_at := 3, updated_at := 3 },
           { id := 4, name := "P4", description := "d", type := .shirt,
             gender := none, base_price := 400, image_url := none,
             is_active := true, created_at := 4, updated_at := 4 },
           { id := 5, name := "P5", description := "d", type := .shirt,
             gender := none, base_price := 500, image_url := none,
             is_active := false, created_at := 5, updated_at := 5 }],
        variations := [], carts := [], cartItems := [], orders := [],
        orderItems := [], addresses := [] }).total = 4
    ∧ (getProducts
      { type := none, gender := none, search := none, min_price := none,
        max_price := none, page := 1, limit := 2 }
      { users := [], products :=
          [{ id := 1, name := "P1", description := "d", type := .perfume,
             gender := some .unisex, base_price := 100, image_url := none,
             is_active := true, created_at := 1, updated_at := 1 },
           { id := 2, name := "P2", description := "d", type := .perfume,
             gender := some .unisex, base_price := 200, image_url := none,
             is_active := true, created_at := 2, updated_at := 2 },
           { id := 3, name := "P3", description := "d", type := .shirt,
             gender := none, base_price := 300, image_url := none,
             is_active := true, created_at := 3, updated_at := 3 },
           { id := 4, name := "P4", description := "d", type := .shirt,
             gender := none, base_price := 400, image_url := none,
             is_active := true, created_at := 4, updated_at := 4 },
           { id := 5, name := "P5", description := "d", type := .shirt,
             gender := none, base_price := 500, image_url := none,
             is_active := false, created_at := 5, updated_at := 5 }],
        variations := [], carts := [], cartItems := [], orders := [],
        orderItems := [], addresses := [] }).total_pages = 2
    ∧ (∀ pw ∈ (getProducts
      { type := none, gender := none, search := none, min_price := none,
        max_price := none, page := 1, limit := 2 }
      { users := [], products :=
          [{ id := 1, name := "P1", description := "d", type := .perfume,
             gender := some .unisex, base_price := 100, image_url := none,
             is_active := true, created_at := 1, updated_at := 1 },
           { id := 2, name := "P2", description := "d", type := .perfume,
             gender := some .unisex, base_price := 200, image_url := none,
             is_active := true, created_at := 2, updated_at := 2 },
           { id := 3, name := "P3", description := "d", type := .shirt,
             gender := none, base_price := 300, image_url := none,
             is_active := true, created_at := 3, updated_at := 3 },
           { id := 4, name := "P4", description := "d", type := .shirt,
             gender := none, base_price := 400, image_url := none,
             is_active := true, created_at := 4, updated_at := 4 },
           { id := 5, name := "P5", description := "d", type := .shirt,
             gender := none, base_price := 500, image_url := none,
             is_active := false, created_at := 5, updated_at := 5 }],
        variations := [], carts := [], cartItems := [], orders := [],
        orderItems := [], addresses := [] }).products,
      pw.product.is_active = true)
    ∧ List.Disjoint
        ((getProducts
          { type := none, gender := none, search := none, min_price := none,
            max_price := none, page := 1, limit := 2 }
          { users := [], products :=
              [{ id := 1, name := "P1", description := "d", type := .perfume,
                 gender := some .unisex, base_price := 100, image_url := none,
                 is_active := true, created_at := 1, updated_at := 1 },
               { id := 2, name := "P2", description := "d", type := .perfume,
                 gender := some .unisex, base_price := 200, image_url := none,
                 is_active := true, created_at := 2, updated_at := 2 },
               { id := 3, name := "P3", description := "d", type := .shirt,
                 gender := none, base_price := 300, image_url := none,
                 is_active := true, created_at := 3, updated_at := 3 },
               { id := 4, name := "P4", description := "d", type := .shirt,
                 gender := none, base_price := 400, image_url := none,
                 is_active := true, created_at := 4, updated_at := 4 },
               { id := 5, name := "P5", description := "d", type := .shirt,
                 gender := none, base_price := 500, image_url := none,
                 is_active := false, created_at := 5, updated_at := 5 }],
            variations := [], carts := [], cartItems := [], orders := [],
            orderItems := [], addresses := [] }).products.map
          (·.product.id))
        ((getProducts
          { type := none, gender := none, search := none, min_price := none,
            max_price := none, page := 2, limit := 2 }
          { users := [], products :=
              [{ id := 1, name := "P1", description := "d", type := .perfume,
                 gender := some .unisex, base_price := 100, image_url := none,
                 is_active := true, created_at := 1, updated_at := 1 },
               { id := 2, name := "P2", description := "d", type := .perfume,
                 gender := some .unisex, base_price := 200, image_url := none,
                 is_active := true, created_at := 2, updated_at := 2 },
               { id := 3, name := "P3", description := "d", type := .shirt,
                 gender := none, base_price := 300, image_url := none,
                 is_active := true, created_at := 3, updated_at := 3 },
               { id := 4, name := "P4", description := "d", type := .shirt,
                 gender := none, base_price := 400, image_url := none,
                 is_active := true, created_at := 4, updated_at := 4 },
               { id := 5, name := "P5", description := "d", type := .shirt,
                 gender := none, base_price := 500, image_url := none,
                 is_active := false, created_at := 5, updated_at := 5 }],
            variations := [], carts := [], cartItems := [], orders := [],
            orderItems := [], addresses := [] }).products.map
          (·.product.id)) := by
  have h := C6_getProducts_pagination
    { type := none, gender := none, search := none, min_price := none,
      max_price := none, page := 1, limit := 2 }
    { users := [], products :=
        [{ id := 1, name := "P1", description := "d", type := .perfume,
           gender := some .unisex, base_price := 100, image_url := none,
           is_active := true, created_at := 1, updated_at := 1 },
         { id := 2, name := "P2", description := "d", type := .perfume,
           gender := some .unisex, base_price := 200, image_url := none,
           is_active := true, created_at := 2, updated_at := 2 },
         { id := 3, name := "P3", description := "d", type := .shirt,
           gender := none, base_price := 300, image_url := none,
           is_active := true, created_at := 3, updated_at := 3 },
         { id := 4, name := "P4", description := "d", type := .shirt,
           gender := none, base_price := 400, image_url := none,
           is_active := true, created_at := 4, updated_at := 4 },
         { id := 5, name := "P5", description := "d", type := .shirt,
           gender := none, base_price := 500, image_url := none,
           is_active := false, created_at := 5, updated_at := 5 }],
      variations := [], carts := [], cartItems := [], orders := [],
      orderItems := [], addresses := [] }
    (by decide) (by decide) (by decide)
  refine ⟨by decide, by decide, h.1, ?_⟩
  exact h.2.2.2.2.2.1 1 2 (by decide) (by decide) (by decide)

/-- Claim C1 (code bug demonstration): registering a fresh email and then
logging in with the very same email and password fails with the
Unauthorized message, for every password that differs from the stored
digest string. `register` stores `salt ++ ":" ++ pbkdf2Hex` (a 64-hex-char
salt, a colon, and a 128-hex-char hash in the source, so the digest never
equals a user-chosen password in practice), while `login` compares the raw
submitted password against that stored digest with `===`; the round trip
promised by the claim therefore never succeeds. -/
theorem C1_register_then_login_always_fails (now : Nat) (salt hashHex : String)
    (input : RegisterInput) (st : Store)
    (hfree : emailFree st input.email)
    (hneq : input.password ≠ registerDigest salt hashHex) :
    login { email := input.email, password := input.password }
      (register now salt hashHex input st).2 =
      .error "Invalid email or password" := by
  have hany : st.users.any (fun u => u.email = input.email) = false := by
    simp only [List.any_eq_false, decide_eq_true_eq]
    intro u hu
    exact hfree u hu
  have hst2 : (register now salt hashHex input st).2 =
      { st with users := st.users ++
          [{ id := freshId (st.users.map (·.id))
             email := input.email
             password_hash := registerDigest salt hashHex
             first_name := input.first_name
             last_name := input.last_name
             role := .customer
             created_at := now
             updated_at := now }] } := by
    simp [register, hany]
  rw [hst2]
  unfold login
  rw [show ({ st with users := st.users ++
      [{ id := freshId (st.users.map (·.id))
         email := input.email
         password_hash := registerDigest salt hashHex
         first_name := input.first_name
         last_name := input.last_name
         role := .customer
         created_at := now
         updated_at := now }] } : Store).users = st.users ++ [_] from rfl]
  rw [find?_append_right _ _ _ (fun x hx => by
    simp only [decide_eq_true_eq]
    exact hfree x hx)]
  simp [hneq]

/-- Claim C1 witness: a concrete register-then-login round trip that fails. -/
theorem C1_register_then_login_always_fails_witness :
    login { email := "test@example.com", password := "password123" }
      (register 0 "a1b2" "c3d4"
        { email := "test@example.com", password := "password123",
          first_name := "John", last_name := "Doe" }
        { users := [], products := [], variations := [], carts := [],
          cartItems := [], orders := [], orderItems := [], addresses := [] }).2 =
      .error "Invalid email or password" :=
  C1_register_then_login_always_fails 0 "a1b2" "c3d4"
    { email := "test@example.com", password := "password123",
      first_name := "John", last_name := "Doe" }
    { users := [], products := [], variations := [], carts := [],
      cartItems := [], orders := [], orderItems := [], addresses := [] }
    (by intro u hu; simp at hu)
    (by decide)

end Shop
